import Mathlib

/-!
# cage_ros_bridge: odometry integrator and bridge lifecycle

Shallow embedding of `src/bridge_main.cpp`.

Numeric convention.  A C++ `double` is embedded as `Double`, a model of
IEEE 754 binary64: not-a-number, the two infinities, and the finite values
`± n * 2 ^ (-1074)` with a sign bit (so `+0` and `-0` are distinct).  Every
arithmetic operation computes the exact result and rounds it once, to nearest
with ties to even, to 53 significant bits, overflowing to an infinity; the
comparisons are false on not-a-number and treat the two zeros as equal.  Each
C++ operation is one such operation (no fused multiply-add, no extended
precision).  A decimal literal is the double nearest to it: `0.001` is
`Double.lit 1 1000`, `60.` is `Double.lit 60 1`.  The type `Double` also holds
finite values with more than 53 significant bits; `Double.IsDouble` picks out
the doubles, every operation returns one (`Double.add_isDouble` and its
siblings), and the theorems hold for every value of the type.

External libraries.  `cos`, `sin` and `M_PI` (libm) and the quaternion
operations of tf2 are not code of this repository: they are taken as
parameters (`Libm`, `Tf2`).  The telemetry client of `cageclient.hh` is
represented by the answers it gives during one call (`CageAPI`).
-/

namespace CageRos

/-! ## The double-precision numbers -/

/-- An IEEE 754 binary64 value.  `fin neg n` is the finite value
`(-1) ^ neg * n * 2 ^ (-1074)`: `n` counts units of the smallest subnormal.
The doubles are the `fin neg n` with `n < 2 ^ 2098` and at most 53 significant
bits, the two infinities and `nan`. -/
inductive Double where
  | nan
  | inf (neg : Bool)
  | fin (neg : Bool) (n : Nat)
  deriving DecidableEq, Repr

/-- Position of the highest set bit of `n` (0 for `n < 2`), by halving at most
`fuel` times. -/
def Double.lg : Nat → Nat → Nat
  | 0, _ => 0
  | fuel + 1, n => if n < 2 then 0 else Double.lg fuel (n / 2) + 1

/-- The integer nearest to `p / q`, ties to the even one. -/
def Double.rne (p q : Nat) : Nat :=
  let d := p / q
  let r := p % q
  if 2 * r < q then d
  else if q < 2 * r then d + 1
  else if d % 2 = 0 then d else d + 1

/-- The quantity `p / q` (in units of `2 ^ (-1074)`) rounded to nearest, ties
to even, at 53 significant bits: below `2 ^ 53` units the spacing is one unit,
from `2 ^ b` units on it is `2 ^ (b - 52)`. -/
def Double.roundUnits (p q : Nat) : Nat :=
  let s := Double.lg 4200 (p / q) - 52
  Double.rne p (q * 2 ^ s) * 2 ^ s

/-- The double with the given sign and rounded magnitude: an infinity from
`2 ^ 1024` (`2 ^ 2098` units) on. -/
def Double.ofUnits (neg : Bool) (n : Nat) : Double :=
  if n < 2 ^ 2098 then Double.fin neg n else Double.inf neg

/-- The signed number of units of a finite double. -/
def Double.signedUnits (neg : Bool) (n : Nat) : Int :=
  if neg then -(n : Int) else (n : Int)

/-- The double nearest to the decimal literal `p / q`. -/
def Double.lit (p q : Nat) : Double :=
  Double.ofUnits false (Double.roundUnits (p * 2 ^ 1074) q)

/-- Unary minus: flips the sign bit. -/
def Double.neg : Double → Double
  | Double.nan => Double.nan
  | Double.inf s => Double.inf (!s)
  | Double.fin s n => Double.fin (!s) n

/-- Addition.  Opposite infinities give not-a-number; an exact zero sum of
opposite signs is `+0`. -/
def Double.add : Double → Double → Double
  | Double.nan, _ => Double.nan
  | _, Double.nan => Double.nan
  | Double.inf s1, Double.inf s2 => if s1 = s2 then Double.inf s1 else Double.nan
  | Double.inf s1, Double.fin _ _ => Double.inf s1
  | Double.fin _ _, Double.inf s2 => Double.inf s2
  | Double.fin s1 n1, Double.fin s2 n2 =>
    if s1 = s2 then Double.ofUnits s1 (Double.roundUnits (n1 + n2) 1)
    else if n2 < n1 then Double.ofUnits s1 (Double.roundUnits (n1 - n2) 1)
    else if n1 < n2 then Double.ofUnits s2 (Double.roundUnits (n2 - n1) 1)
    else Double.fin false 0

/-- Subtraction: `a - b` is `a + (-b)`. -/
def Double.sub (a b : Double) : Double := Double.add a (Double.neg b)

/-- Multiplication.  Infinity times zero is not-a-number. -/
def Double.mul : Double → Double → Double
  | Double.nan, _ => Double.nan
  | _, Double.nan => Double.nan
  | Double.inf s1, Double.inf s2 => Double.inf (xor s1 s2)
  | Double.inf s1, Double.fin s2 n2 =>
    if n2 = 0 then Double.nan else Double.inf (xor s1 s2)
  | Double.fin s1 n1, Double.inf s2 =>
    if n1 = 0 then Double.nan else Double.inf (xor s1 s2)
  | Double.fin s1 n1, Double.fin s2 n2 =>
    Double.ofUnits (xor s1 s2) (Double.roundUnits (n1 * n2) (2 ^ 1074))

/-- Division.  A non-zero finite value over zero is an infinity; zero over zero
and infinity over infinity are not-a-number. -/
def Double.div : Double → Double → Double
  | Double.nan, _ => Double.nan
  | _, Double.nan => Double.nan
  | Double.inf _, Double.inf _ => Double.nan
  | Double.inf s1, Double.fin s2 _ => Double.inf (xor s1 s2)
  | Double.fin s1 _, Double.inf s2 => Double.fin (xor s1 s2) 0
  | Double.fin s1 n1, Double.fin s2 n2 =>
    if n2 = 0 then (if n1 = 0 then Double.nan else Double.inf (xor s1 s2))
    else Double.ofUnits (xor s1 s2) (Double.roundUnits (n1 * 2 ^ 1074) n2)

/-- The comparison `a < b`; false when either side is not-a-number. -/
def Double.lt : Double → Double → Bool
  | Double.nan, _ => false
  | _, Double.nan => false
  | Double.inf s1, Double.inf s2 => s1 && !s2
  | Double.inf s1, Double.fin _ _ => s1
  | Double.fin _ _, Double.inf s2 => !s2
  | Double.fin s1 n1, Double.fin s2 n2 =>
    decide (Double.signedUnits s1 n1 < Double.signedUnits s2 n2)

/-- The comparison `a <= b`; false when either side is not-a-number. -/
def Double.le : Double → Double → Bool
  | Double.nan, _ => false
  | _, Double.nan => false
  | Double.inf s1, Double.inf s2 => s1 || !s2
  | Double.inf s1, Double.fin _ _ => s1
  | Double.fin _ _, Double.inf s2 => !s2
  | Double.fin s1 n1, Double.fin s2 n2 =>
    decide (Double.signedUnits s1 n1 ≤ Double.signedUnits s2 n2)

/-- A value is a double: not-a-number, an infinity, or a finite value below
`2 ^ 1024` whose units have at most 53 significant bits. -/
def Double.IsDouble : Double → Bool
  | Double.nan => true
  | Double.inf _ => true
  | Double.fin _ n => decide (n < 2 ^ 2098 ∧ n % 2 ^ (Double.lg 4200 n - 52) = 0)

/-- The double with the given binary64 bit pattern: sign bit 63, exponent
field bits 62 to 52, fraction bits 51 to 0. -/
def Double.ofBits (bits : Nat) : Double :=
  let s := decide (bits / 2 ^ 63 % 2 = 1)
  let e := bits / 2 ^ 52 % 2 ^ 11
  let f := bits % 2 ^ 52
  if e = 2047 then (if f = 0 then Double.inf s else Double.nan)
  else if e = 0 then Double.fin s f
  else Double.fin s ((2 ^ 52 + f) * 2 ^ (e - 1))

instance : Zero Double := ⟨Double.fin false 0⟩

instance : One Double := ⟨Double.fin false (2 ^ 1074)⟩

instance : Neg Double := ⟨Double.neg⟩

instance : Add Double := ⟨Double.add⟩

instance : Sub Double := ⟨Double.sub⟩

instance : Mul Double := ⟨Double.mul⟩

instance : Div Double := ⟨Double.div⟩

instance : LT Double := ⟨fun a b => Double.lt a b = true⟩

instance : LE Double := ⟨fun a b => Double.le a b = true⟩

instance (a b : Double) : Decidable (a < b) :=
  inferInstanceAs (Decidable (Double.lt a b = true))

instance (a b : Double) : Decidable (a ≤ b) :=
  inferInstanceAs (Decidable (Double.le a b = true))

/-! ## Data model -/

/-- The `Arr3d` of the source, `std::array<double, 3>`. -/
structure Arr3d where
  e0 : Double
  e1 : Double
  e2 : Double

/-- The `Arr4d` of the source, `std::array<double, 4>`. -/
structure Arr4d where
  e0 : Double
  e1 : Double
  e2 : Double
  e3 : Double

/-- The `tf2::Quaternion` value, with the constructor's argument order
`(x, y, z, w)`. -/
structure Quaternion where
  x : Double
  y : Double
  z : Double
  w : Double

/-- Modelled from the spec: `CageAPI::Transform` (declared in `cageclient.hh`,
which is not under src): a static transform, a 3-vector translation `trans`
and a rotation `rot` read by the source as `rot[0..3]`. -/
structure Transform where
  trans : Arr3d
  rot : Arr4d

/-- Modelled from the spec: `CageAPI::vehicleStatus` (declared in
`cageclient.hh`, which is not under src), with the members the source reads:
simulation clock, wheel rates, body angular rates, linear accelerations,
ground-truth position and orientation, latitude and longitude. -/
structure vehicleStatus where
  simClock : Double
  rrpm : Double
  lrpm : Double
  rx : Double
  ry : Double
  rz : Double
  ax : Double
  ay : Double
  az : Double
  wx : Double
  wy : Double
  wz : Double
  ox : Double
  oy : Double
  oz : Double
  ow : Double
  latitude : Double
  longitude : Double

/-- Modelled from the spec: `CageAPI::vehicleInfo` (declared in
`cageclient.hh`, which is not under src): wheel perimeters, reduction ratio,
tread width and the named static transforms (`Transforms["Lidar"]`,
`Transforms["IMU"]`). -/
structure vehicleInfo where
  TreadWidth : Double
  WheelPerimeterR : Double
  WheelPerimeterL : Double
  ReductionRatio : Double
  Transforms : String → Transform

/-- The libm functions and constant used by the source (`cos`, `sin`,
`M_PI`), taken as parameters. -/
structure Libm where
  cos : Double → Double
  sin : Double → Double
  M_PI : Double

/-- `std::numeric_limits<double>::max()`, the largest finite double:
`(2 ^ 53 - 1) * 2 ^ 971`, that is `(2 ^ 53 - 1) * 2 ^ 2045` units. -/
def DBL_MAX : Double := Double.fin false ((2 ^ 53 - 1) * 2 ^ 2045)

/-! ## SimpleOdometry -/

/-- The class `SimpleOdometry`: the vehicle geometry `Info`, the private
`LastClock` and the public `X, Y, Th, Vx, Az`. -/
structure SimpleOdometry where
  Info : vehicleInfo
  LastClock : Double
  X : Double
  Y : Double
  Th : Double
  Vx : Double
  Az : Double

/-- The constructor `SimpleOdometry(info)`: `LastClock` is
`numeric_limits<double>::max()`, the public members have the initialiser 0. -/
def SimpleOdometry.new (info : vehicleInfo) :
    SimpleOdometry :=
  { Info := info, LastClock := DBL_MAX, X := 0, Y := 0, Th := 0, Vx := 0, Az := 0 }

/-- The method `Reset(x, y, th)`; the source's default arguments are all 0, so
the call `Reset()` is `Reset 0 0 0`. -/
def SimpleOdometry.Reset (o : SimpleOdometry) (x y th : Double) :
    SimpleOdometry :=
  { o with X := x, Y := y, Th := th }

/-- The method `Accumulate(st)`: the returned `int` and the state after the
call.  -1 is the reset branch, 0 the skipped branch, 1 the update. -/
def SimpleOdometry.Accumulate (m : Libm)
    (o : SimpleOdometry) (st : vehicleStatus) : Int × SimpleOdometry :=
  if o.LastClock > st.simClock then
    -- reset odometry
    (-1, { o with LastClock := st.simClock, X := 0, Y := 0, Th := 0 })
  else
    let dt := st.simClock - o.LastClock
    if dt < Double.lit 1 1000 then
      (0, o)
    else
      let vr := -st.rrpm * o.Info.WheelPerimeterR / o.Info.ReductionRatio / Double.lit 60 1
      let vl := st.lrpm * o.Info.WheelPerimeterL / o.Info.ReductionRatio / Double.lit 60 1
      let vx := (vr + vl) / Double.lit 2 1
      let az := st.rz
      let dx := vx * m.cos o.Th * dt
      let dy := vx * m.sin o.Th * dt
      (1, { o with
              LastClock := st.simClock
              X := o.X + dx
              Y := o.Y + dy
              Th := o.Th + az * dt
              Vx := vx
              Az := az })

/-- The three results of `Accumulate`, as the source's comment names them. -/
def RESET : Int := -1

/-- Result of `Accumulate` when the clock moved by less than 1 ms. -/
def SKIPPED : Int := 0

/-- Result of `Accumulate` when the pose was integrated. -/
def UPDATED : Int := 1

/-! ## RosBridge: the publisher -/

/-- Modelled from the spec: `CageAPI` world metadata (`Cage.WorldInfo`,
declared in `cageclient.hh`, which is not under src): validity flag, reference
geodetic origin, reference location and reference rotation. -/
structure worldInfo where
  valid : Bool
  Latitude0 : Double
  Longitude0 : Double
  ReferenceLocation : Arr3d
  ReferenceRotation : Arr4d

/-- The tf2 quaternion operations used by the source, taken as parameters:
`setRPY(roll, pitch, yaw)` and the product `operator*`. -/
structure Tf2 where
  setRPY : Double → Double → Double → Quaternion
  mul : Quaternion → Quaternion → Quaternion

/-- An `rclcpp::Time`, in nanoseconds. -/
abbrev Stamp := Nat

/-- The message type a publisher was created for (the template argument of
`NewPublisher`). -/
inductive MsgKind where
  | Imu
  | Odometry
  | NavSatFix
  deriving DecidableEq, Repr

/-- The fields of `nav_msgs::msg::Odometry` the source writes. -/
structure Odometry where
  frame_id : String
  stamp : Stamp
  child_frame_id : String
  position : Arr3d
  orientation : Quaternion
  pose_covariance : List Double
  linear : Arr3d
  angular : Arr3d
  twist_covariance : List Double

/-- The fields of `sensor_msgs::msg::Imu` the source writes. -/
structure Imu where
  frame_id : String
  stamp : Stamp
  orientation : Quaternion
  orientation_covariance : List Double
  angular_velocity : Arr3d
  angular_velocity_covariance : List Double
  linear_acceleration : Arr3d
  linear_acceleration_covariance : List Double

/-- The fields of `sensor_msgs::msg::NavSatFix` the source writes; `service`
is the message's `uint16` and `status` its `int8`. -/
structure NavSatFix where
  frame_id : String
  stamp : Stamp
  service : Nat
  status : Int
  latitude : Double
  longitude : Double
  altitude : Double
  position_covariance : List Double
  position_covariance_type : Nat

/-- The `geometry_msgs::msg::TransformStamped` handed to the broadcaster. -/
structure TransformStamped where
  stamp : Stamp
  frame_id : String
  child_frame_id : String
  translation : Arr3d
  rotation : Quaternion

/-- One record handed to the output side: a message published on a topic, or
a transform sent through the broadcaster `TFb`. -/
inductive Record where
  | odometry (topic : String) (msg : Odometry)
  | imu (topic : String) (msg : Imu)
  | navSatFix (topic : String) (msg : NavSatFix)
  | transform (msg : TransformStamped)

/-- The `PublisherDesc` of the source; the publisher pointer `pub` is
represented by its topic, message type and queue length. -/
structure PublisherDesc where
  topic : String
  kind : MsgKind
  qlen : Nat
  frame_id : String
  child_frame_id : String
  deriving DecidableEq, Repr

/-- The class `RosBridge`: the registered publishers and `ImuId`. -/
structure RosBridge where
  Publishers : List PublisherDesc
  ImuId : Int
  deriving DecidableEq, Repr

/-- An `int` converted to `size_t`, as in `pubid >= Publishers.size()` and in
`Publishers[pubid]`. -/
def toSizeT (i : Int) : Nat := (i % 2 ^ 64).toNat

/-- The method `NewPublisher<msgType>(topic, qlen, frame_id, child_frame_id)`:
the returned index and the bridge with the publisher appended. -/
def RosBridge.NewPublisher (r : RosBridge) (kind : MsgKind) (topic : String) (qlen : Nat)
    (frame_id child_frame_id : String) : Int × RosBridge :=
  let ps := r.Publishers ++ [{ topic := topic, kind := kind, qlen := qlen,
                               frame_id := frame_id, child_frame_id := child_frame_id }]
  ((ps.length : Int) - 1, { r with Publishers := ps })

/-- The constructor `RosBridge()`: registers the `imu` publisher. -/
def RosBridge.new : RosBridge :=
  let r0 : RosBridge := { Publishers := [], ImuId := 0 }
  let p := r0.NewPublisher MsgKind.Imu "imu" 100 "base_link" "imu_link"
  { p.2 with ImuId := p.1 }

/-- The 36 zeros written to both covariance arrays by `BuildNavMsg`. -/
def zeroCovariance36 : List Double := List.replicate 36 0

/-- The 9 zeros written to the covariance arrays by `PublishIMU`. -/
def zeroCovariance9 : List Double := List.replicate 9 0

/-- The method `BuildNavMsg(x, y, z, q, vx, az)`; the header is left at its
default. -/
def RosBridge.BuildNavMsg (x y z : Double) (q : Quaternion)
    (vx az : Double) : Odometry :=
  { frame_id := "", stamp := 0, child_frame_id := ""
    position := ⟨x, y, z⟩
    orientation := q
    pose_covariance := zeroCovariance36
    linear := ⟨vx, 0, 0⟩
    angular := ⟨0, 0, az⟩
    twist_covariance := zeroCovariance36 }

/-- The method `PublishTFTransform(stamp, frame_id, child_frame_id,
translation, q)`: one transform sent through the broadcaster. -/
def RosBridge.PublishTFTransform (stamp : Stamp) (frame_id child_frame_id : String)
    (translation : Arr3d) (q : Quaternion) : List (Record) :=
  [Record.transform { stamp := stamp, frame_id := frame_id, child_frame_id := child_frame_id
                      translation := ⟨translation.e0, translation.e1, translation.e2⟩
                      rotation := q }]

/-- The method `PublishOdom`: the records it emits, or `none` where the source
dereferences the null result of the `dynamic_pointer_cast` (a publisher of
another message type). -/
def RosBridge.PublishOdom (r : RosBridge) (pubid : Int)
    (stamp : Stamp) (x y z : Double) (q : Quaternion) (vx az : Double) : Option (List (Record)) :=
  if toSizeT pubid ≥ r.Publishers.length then some []
  else
    match r.Publishers[toSizeT pubid]? with
    | none => none
    | some np =>
      let odo := RosBridge.BuildNavMsg x y z q vx az
      let odo := { odo with frame_id := np.frame_id, stamp := stamp,
                            child_frame_id := np.child_frame_id }
      if np.kind = MsgKind.Odometry then
        some (Record.odometry np.topic odo ::
          RosBridge.PublishTFTransform stamp np.frame_id np.child_frame_id ⟨x, y, z⟩ q)
      else none

/-- The method `PublishIMU`: the records it emits, or `none` where the source
indexes `Publishers[ImuId]` out of range or dereferences a null cast. -/
def RosBridge.PublishIMU (r : RosBridge) (stamp : Stamp)
    (orientation : Arr4d) (angvel accel tfTransform : Arr3d) (tfRot : Arr4d) :
    Option (List (Record)) :=
  match r.Publishers[toSizeT r.ImuId]? with
  | none => none
  | some np =>
    let imu : Imu :=
      { frame_id := np.frame_id, stamp := stamp
        orientation := { w := orientation.e0, x := orientation.e1,
                         y := orientation.e2, z := orientation.e3 }
        orientation_covariance := zeroCovariance9
        angular_velocity := ⟨angvel.e0, angvel.e1, angvel.e2⟩
        angular_velocity_covariance := zeroCovariance9
        linear_acceleration := ⟨accel.e0, accel.e1, accel.e2⟩
        linear_acceleration_covariance := zeroCovariance9 }
    if np.kind = MsgKind.Imu then
      let q : Quaternion := ⟨tfRot.e1, tfRot.e2, tfRot.e3, tfRot.e0⟩
      some (Record.imu np.topic imu ::
        RosBridge.PublishTFTransform stamp np.frame_id np.child_frame_id tfTransform q)
    else none

/-- The constant `sensor_msgs::msg::NavSatStatus::SERVICE_GPS`. -/
def SERVICE_GPS : Nat := 1

/-- The constant `sensor_msgs::msg::NavSatStatus::STATUS_FIX`. -/
def STATUS_FIX : Int := 0

/-- The constant `sensor_msgs::msg::NavSatFix::COVARIANCE_TYPE_APPROXIMATED`. -/
def COVARIANCE_TYPE_APPROXIMATED : Nat := 1

/-- The method `PublishNavSat`, with the source's default arguments `service`
and `status` written out by the caller; the `unsigned int service` and the
`int status` are narrowed to the message's `uint16` and `int8` fields.  The
result is the records it emits, or `none` where the source dereferences a null
cast. -/
def RosBridge.PublishNavSat (r : RosBridge) (pubid : Int)
    (stamp : Stamp) (lat lon : Double) (pos : Arr3d) (q : Quaternion) (publishTF : Bool)
    (service : Nat) (status : Int) : Option (List (Record)) :=
  if toSizeT pubid ≥ r.Publishers.length then some []
  else
    match r.Publishers[toSizeT pubid]? with
    | none => none
    | some np =>
      let nav : NavSatFix :=
        { frame_id := np.child_frame_id, stamp := stamp
          service := service % 2 ^ 16, status := (status + 128) % 256 - 128
          latitude := lat, longitude := lon
          altitude := Double.nan
          position_covariance := [1, 0, 0, 0, 1, 0, 0, 0, 1]
          position_covariance_type := COVARIANCE_TYPE_APPROXIMATED }
      if np.kind = MsgKind.NavSatFix then
        some (Record.navSatFix np.topic nav ::
          (if publishTF then
             RosBridge.PublishTFTransform stamp np.frame_id np.child_frame_id pos q
           else []))
      else none

/-! ## CageRosBridgeMain: the bridge lifecycle -/

/-- Modelled from the spec: the telemetry client `CageAPI` (declared in
`cageclient.hh`, which is not under src), as the answers it gives during one
call of `initialize` or `Spin`: the result of `connect()`, the result of
`getStatusOne(st, 100)` (`none` when it returns false), the text returned by
`getError()`, and the metadata members `VehicleInfo` and `WorldInfo`. -/
structure CageAPI where
  connect : Bool
  getStatusOne : Option (vehicleStatus)
  getError : String
  VehicleInfo : vehicleInfo
  WorldInfo : worldInfo

/-- The class `CageRosBridgeMain`: the members the source reads and writes.
`Odo` is the `unique_ptr`, `none` while it is null.  `Seq` is the 64-bit
sequence counter. -/
structure CageRosBridgeMain where
  rosIF : RosBridge
  Odo : Option (SimpleOdometry)
  pubOdom : Int
  pubOdom_gt : Int
  pubLatLon : Int
  WorldRotation : Quaternion
  QLidar : Quaternion
  LidarTransform : Transform
  IMUTransform : Transform
  Seq : Nat
  Ok : Bool
  Err : String

/-- The constructor `CageRosBridgeMain(device)`: creates the publisher node
and registers `odom`, `odom_gt` and `gps/fix`.  The members the constructor
leaves without a value (`WorldRotation`, `QLidar`, `LidarTransform`,
`IMUTransform`) are passed in as `q0` and `t0`. -/
def CageRosBridgeMain.new (q0 : Quaternion) (t0 : Transform) :
    CageRosBridgeMain :=
  let r0 := RosBridge.new
  let p1 := r0.NewPublisher MsgKind.Odometry "odom" 100 "odom" "base_link"
  let p2 := p1.2.NewPublisher MsgKind.Odometry "odom_gt" 100 "odom" "base_link_gt"
  let p3 := p2.2.NewPublisher MsgKind.NavSatFix "gps/fix" 100 "base_link" "latlon"
  { rosIF := p3.2, Odo := none
    pubOdom := p1.1, pubOdom_gt := p2.1, pubLatLon := p3.1
    WorldRotation := q0, QLidar := q0, LidarTransform := t0, IMUTransform := t0
    Seq := 0, Ok := false, Err := "" }

/-- The publisher wiring of a bridge is the one the constructor builds; no
method of the bridge changes it afterwards (`set` is never called). -/
def CageRosBridgeMain.Wired (b : CageRosBridgeMain) : Prop :=
  b.rosIF = (CageRosBridgeMain.new b.QLidar b.IMUTransform).rosIF ∧
  b.pubOdom = (CageRosBridgeMain.new b.QLidar b.IMUTransform).pubOdom ∧
  b.pubOdom_gt = (CageRosBridgeMain.new b.QLidar b.IMUTransform).pubOdom_gt ∧
  b.pubLatLon = (CageRosBridgeMain.new b.QLidar b.IMUTransform).pubLatLon

/-- The outcome of one call of `initialize`: the returned `bool`, the bridge
after the call and the velocity commands sent with `Cage.setVW`. -/
structure InitResult where
  ret : Bool
  bridge : CageRosBridgeMain
  setVW : List (Double × Double)

/-- The method `initialize()` (written `Initialize` here, the lower-case word
being reserved in Lean). -/
def CageRosBridgeMain.Initialize (m : Libm) (t : Tf2)
    (Cage : CageAPI) (b : CageRosBridgeMain) : InitResult :=
  let b := { b with Seq := 0 }
  if !Cage.connect then
    { ret := false
      bridge := { b with Err := "Failed to connect:" ++ Cage.getError, Ok := false }
      setVW := [] }
  else
    match Cage.getStatusOne with
    | none =>
      { ret := false
        bridge := { b with Err := "getStatus failed:" ++ Cage.getError, Ok := false }
        setVW := [] }
    | some st =>
      let Odo := ((SimpleOdometry.new Cage.VehicleInfo).Accumulate m st).2
      -- ground truth
      let LidarTransform := Cage.VehicleInfo.Transforms "Lidar"
      let QLidar : Quaternion :=
        ⟨LidarTransform.rot.e1, LidarTransform.rot.e2, LidarTransform.rot.e3,
         LidarTransform.rot.e0⟩
      let IMUTransform := Cage.VehicleInfo.Transforms "IMU"
      let WorldRotation : Quaternion :=
        if Cage.WorldInfo.valid then
          let geoRot : Quaternion :=
            ⟨Cage.WorldInfo.ReferenceRotation.e1, Cage.WorldInfo.ReferenceRotation.e2,
             Cage.WorldInfo.ReferenceRotation.e3, Cage.WorldInfo.ReferenceRotation.e0⟩
          let geo2world := t.setRPY 0 0 (m.M_PI / Double.lit 2 1)
          t.mul (t.mul ⟨st.ox, st.oy, st.oz, st.ow⟩ geoRot) geo2world
        else ⟨0, 0, 0, 1⟩
      { ret := true
        bridge := { b with
                      Odo := some Odo
                      LidarTransform := LidarTransform
                      QLidar := QLidar
                      IMUTransform := IMUTransform
                      WorldRotation := WorldRotation
                      Err := ""
                      Ok := true }
        setVW := [(0, 0)] }

/-- The method `Spin()`: the bridge after the call and the records emitted,
in order; `stamp` is the value of `rclcpp::Clock().now()`.  `none` where the
source dereferences a null `Odo` or a publish call is undefined. -/
def CageRosBridgeMain.Spin (m : Libm) (t : Tf2)
    (Cage : CageAPI) (stamp : Stamp) (b : CageRosBridgeMain) :
    Option (CageRosBridgeMain × List (Record)) :=
  match Cage.getStatusOne with
  | none => some ({ b with Err := "getStatus failed:" ++ Cage.getError, Ok := false }, [])
  | some st =>
    let b := { b with Seq := (b.Seq + 1) % 2 ^ 64 }
    match b.Odo with
    | none => none
    | some odo0 =>
      let r := odo0.Accumulate m st
      let ret := r.1
      let Odo := r.2
      let b := { b with Odo := some Odo }
      if ret ≤ 0 then
        if ret < 0 then
          -- world was restarted
          some ({ b with Ok := false, Err := "World restart detected" }, [])
        else
          -- delta time was too small
          some (b, [])
      else
        -- odometry
        let q := t.setRPY 0 0 Odo.Th
        match b.rosIF.PublishOdom b.pubOdom stamp Odo.X Odo.Y 0 q Odo.Vx Odo.Az with
        | none => none
        | some r1 =>
        -- ground truth
        let qgt : Quaternion := ⟨st.ox, st.oy, st.oz, st.ow⟩
        match b.rosIF.PublishOdom b.pubOdom_gt stamp st.wx st.wy st.wz qgt Odo.Vx st.rz with
        | none => none
        | some r2 =>
        match b.rosIF.PublishIMU stamp ⟨st.ow, st.ox, st.oy, st.oz⟩ ⟨st.rx, st.ry, st.rz⟩
            ⟨st.ax, st.ay, st.az⟩ b.IMUTransform.trans b.IMUTransform.rot with
        | none => none
        | some r3 =>
        -- disabled feature
        let publishMapTF := false
        -- latitude and longitude as gnss fix
        let qu : Quaternion := ⟨0, 0, 0, 1⟩
        match b.rosIF.PublishNavSat b.pubLatLon stamp st.latitude st.longitude ⟨0, 0, 0⟩ qu
            publishMapTF SERVICE_GPS STATUS_FIX with
        | none => none
        | some r4 =>
        -- scanner position
        let r5 := RosBridge.PublishTFTransform stamp "base_link" "lidar3d_link"
                    b.LidarTransform.trans b.QLidar
        -- world - map transform
        let r6 := if publishMapTF then
                    RosBridge.PublishTFTransform stamp "map" "odom" ⟨0, 0, 0⟩ b.WorldRotation
                  else []
        some (b, r1 ++ r2 ++ r3 ++ r4 ++ r5 ++ r6)

/-! ## The driver loop of `main` -/

/-- Which method of the bridge one iteration of the driver loop calls. -/
inductive Call where
  | Initialize
  | Spin
  deriving DecidableEq, Repr

/-- What the surroundings supply during one iteration of the driver loop: the
answers of the telemetry client and the clock reading. -/
structure Cycle where
  Cage : CageAPI
  stamp : Stamp

/-- One iteration of `while (rclcpp::ok())` in `main`: the method called and,
unless the call is undefined, the bridge after it.  The callbacks run by
`spin_some` forward velocity commands to the client and leave the bridge
members alone. -/
def mainIteration (m : Libm) (t : Tf2) (e : Cycle)
    (Bridge : CageRosBridgeMain) : Call × Option (CageRosBridgeMain) :=
  if !Bridge.Ok then
    (Call.Initialize, some (CageRosBridgeMain.Initialize m t e.Cage Bridge).bridge)
  else
    (Call.Spin, (Bridge.Spin m t e.Cage e.stamp).map Prod.fst)

/-- The driver loop of `main` over the iterations for which `rclcpp::ok()`
holds: the log of the calls made, each with the bridge it was made on. -/
def mainLoop (m : Libm) (t : Tf2) :
    List (Cycle) → CageRosBridgeMain → List (Call × CageRosBridgeMain)
  | [], _ => []
  | e :: es, Bridge =>
    match mainIteration m t e Bridge with
    | (c, none) => [(c, Bridge)]
    | (c, some next) => (c, Bridge) :: mainLoop m t es next

/-! ## Concrete inputs used by the scenarios -/

/-- A libm fixed only where the scenarios call it: `cos 0 = 1` and
`sin 0 = 0` (for both zeros), not-a-number elsewhere; `M_PI` is the double
nearest to pi. -/
def libmAtZero : Libm :=
  { cos := fun x => match x with
      | Double.fin _ 0 => 1
      | _ => Double.nan
    sin := fun x => match x with
      | Double.fin s 0 => Double.fin s 0
      | _ => Double.nan
    M_PI := Double.ofBits 0x400921FB54442D18 }

/-- A vehicle geometry with both wheel perimeters 0.5 and reduction ratio 1;
the static transforms are the defaults the bridge constructor registers. -/
def scenarioInfo : vehicleInfo :=
  { TreadWidth := 1, WheelPerimeterR := Double.lit 1 2, WheelPerimeterL := Double.lit 1 2
    ReductionRatio := 1
    Transforms := fun name =>
      if name = "Lidar" then ⟨⟨-Double.lit 22 100, 0, Double.lit 518 1000⟩, ⟨0, 0, 0, 1⟩⟩
      else ⟨⟨0, 0, 0⟩, ⟨0, 0, 0, 1⟩⟩ }

/-- A status sample with the given clock, `rrpm = -600`, `lrpm = 600` and
every other member 0 except the ground-truth orientation `ow = 1`. -/
def scenarioStatus (clock : Double) : vehicleStatus :=
  { simClock := clock, rrpm := -Double.lit 600 1, lrpm := Double.lit 600 1
    rx := 0, ry := 0, rz := 0, ax := 0, ay := 0, az := 0
    wx := 0, wy := 0, wz := 0, ox := 0, oy := 0, oz := 0, ow := 1
    latitude := 0, longitude := 0 }

/-- An integrator at the origin with heading 0 whose last clock is `clock`. -/
def scenarioOdometry (clock : Double) : SimpleOdometry :=
  { Info := scenarioInfo, LastClock := clock, X := 0, Y := 0, Th := 0, Vx := 0, Az := 0 }

/-- An integrator with pose (3, 4, 1) and velocities (2, 1) whose last clock
is `clock`. -/
def scenarioMoving (clock : Double) : SimpleOdometry :=
  { Info := scenarioInfo, LastClock := clock
    X := Double.lit 3 1, Y := Double.lit 4 1, Th := 1, Vx := Double.lit 2 1, Az := 1 }

/-- The quaternion operations as the tf2 library defines them (`setRPY` from
half-angle sines and cosines, the Hamilton product), used to fill the `Tf2`
parameter in the scenarios. -/
def tf2Reference (m : Libm) : Tf2 :=
  { setRPY := fun roll pitch yaw =>
      let cosYaw := m.cos (yaw * Double.lit 1 2)
      let sinYaw := m.sin (yaw * Double.lit 1 2)
      let cosPitch := m.cos (pitch * Double.lit 1 2)
      let sinPitch := m.sin (pitch * Double.lit 1 2)
      let cosRoll := m.cos (roll * Double.lit 1 2)
      let sinRoll := m.sin (roll * Double.lit 1 2)
      ⟨sinRoll * cosPitch * cosYaw - cosRoll * sinPitch * sinYaw,
       cosRoll * sinPitch * cosYaw + sinRoll * cosPitch * sinYaw,
       cosRoll * cosPitch * sinYaw - sinRoll * sinPitch * cosYaw,
       cosRoll * cosPitch * cosYaw + sinRoll * sinPitch * sinYaw⟩
    mul := fun q1 q2 =>
      ⟨q1.w * q2.x + q1.x * q2.w + q1.y * q2.z - q1.z * q2.y,
       q1.w * q2.y + q1.y * q2.w + q1.z * q2.x - q1.x * q2.z,
       q1.w * q2.z + q1.z * q2.w + q1.x * q2.y - q1.y * q2.x,
       q1.w * q2.w - q1.x * q2.x - q1.y * q2.y - q1.z * q2.z⟩ }

/-- A client whose `connect()` succeeds and whose status fetch returns
`scenarioStatus clock`; no world calibration. -/
def scenarioCage (clock : Double) : CageAPI :=
  { connect := true
    getStatusOne := some (scenarioStatus clock)
    getError := ""
    VehicleInfo := scenarioInfo
    WorldInfo := { valid := false, Latitude0 := 0, Longitude0 := 0
                   ReferenceLocation := ⟨0, 0, 0⟩, ReferenceRotation := ⟨1, 0, 0, 0⟩ } }

/-- A healthy bridge as the constructor wires it, whose integrator is
`scenarioOdometry clock`. -/
def scenarioBridge (clock : Double) : CageRosBridgeMain :=
  { CageRosBridgeMain.new ⟨0, 0, 0, 1⟩ ⟨⟨0, 0, 0⟩, ⟨0, 0, 0, 1⟩⟩ with
    Odo := some (scenarioOdometry clock), Ok := true }

/-- The condition the driver loop keeps: the bridge is wired as constructed
and a healthy bridge has an integrator. -/
def CageRosBridgeMain.Ready (b : CageRosBridgeMain) : Prop :=
  b.Wired ∧ (b.Ok = true → ∃ odo, b.Odo = some odo)

/-! ## Theorems: the double-precision numbers -/

/-- The comparison `<` on doubles, unfolded. -/
theorem Double.lt_def (a b : Double) : (a < b) = (Double.lt a b = true) := rfl

/-- The comparison `<=` on doubles, unfolded. -/
theorem Double.le_def (a b : Double) : (a ≤ b) = (Double.le a b = true) := rfl

/-- Subtraction on doubles, unfolded. -/
theorem Double.sub_def (a b : Double) : a - b = Double.add a (Double.neg b) := rfl

/-- The double `0` is `+0`. -/
theorem Double.zero_def : (0 : Double) = Double.fin false 0 := rfl

/-- The arithmetic agrees with binary64 on reference computations, each right
side given by its bit pattern: `0.1 + 0.2`, `1 / 3`, `0.1 * 0.1`,
`0.0013 - 0.0003` (the double `0.001`), `5.0005 - 5`, ties to even at
`1 + 2 ^ (-53)` and at `2 ^ 53 + 1`, the next double after 1, gradual
underflow (`5e-324 / 2 = 0`, three units halved give two), overflow
(`max + max`, `1e308 * 10`), division by zero and the constants `1`, `0.001`,
`max`. -/
theorem Double.conformance :
    Double.lit 1 10 + Double.lit 2 10 = Double.ofBits 0x3FD3333333333334 ∧
    (1 : Double) / Double.lit 3 1 = Double.ofBits 0x3FD5555555555555 ∧
    Double.lit 1 10 * Double.lit 1 10 = Double.ofBits 0x3F847AE147AE147C ∧
    Double.lit 13 10000 - Double.lit 3 10000 = Double.ofBits 0x3F50624DD2F1A9FC ∧
    Double.lit 50005 10000 - Double.lit 5 1 = Double.ofBits 0x3F40624DD2F1A000 ∧
    (1 : Double) + Double.ofBits 0x3CA0000000000000 = 1 ∧
    Double.lit 9007199254740993 1 = Double.ofBits 0x4340000000000000 ∧
    (1 : Double) + Double.ofBits 0x3CB0000000000000 = Double.ofBits 0x3FF0000000000001 ∧
    Double.ofBits 1 / Double.lit 2 1 = 0 ∧
    Double.ofBits 3 / Double.lit 2 1 = Double.ofBits 2 ∧
    DBL_MAX + DBL_MAX = Double.inf false ∧
    Double.ofBits 0x7FE1CCF385EBC8A0 * Double.lit 10 1 = Double.ofBits 0x7FF0000000000000 ∧
    (0 : Double) / 0 = Double.nan ∧
    (-1 : Double) / 0 = Double.ofBits 0xFFF0000000000000 ∧
    (1 : Double) = Double.ofBits 0x3FF0000000000000 ∧
    Double.lit 1 1000 = Double.ofBits 0x3F50624DD2F1A9FC ∧
    DBL_MAX = Double.ofBits 0x7FEFFFFFFFFFFFFF := by
  decide!

/-- The highest-bit position found by `lg` is a power of two below `n`. -/
theorem Double.lg_pow_le (fuel : Nat) : ∀ n : Nat, 1 ≤ n → 2 ^ Double.lg fuel n ≤ n := by
  induction fuel with
  | zero => intro n hn; simpa [Double.lg] using hn
  | succ f ih =>
    intro n hn
    by_cases h2 : n < 2
    · simp [Double.lg, h2]; exact hn
    · have h1 : 1 ≤ n / 2 := by omega
      have := ih (n / 2) h1
      simp only [Double.lg, h2, if_false, pow_succ]
      omega

/-- Rounding to nearest never goes below the integer part. -/
theorem Double.rne_ge (p q : Nat) : p / q ≤ Double.rne p q := by
  unfold Double.rne
  simp only
  split_ifs <;> omega

/-- A sum or difference of at least one unit does not round to zero. -/
theorem Double.roundUnits_pos (p : Nat) (hp : 0 < p) : 0 < Double.roundUnits p 1 := by
  unfold Double.roundUnits
  simp only [Nat.div_one, one_mul]
  have h1 : 2 ^ Double.lg 4200 p ≤ p := Double.lg_pow_le 4200 p hp
  have h2 : 2 ^ (Double.lg 4200 p - 52) ≤ 2 ^ Double.lg 4200 p :=
    Nat.pow_le_pow_right (by norm_num) (Nat.sub_le _ _)
  have h3 : 0 < 2 ^ (Double.lg 4200 p - 52) := Nat.pow_pos (by norm_num)
  have h4 : 1 ≤ p / 2 ^ (Double.lg 4200 p - 52) :=
    (Nat.one_le_div_iff h3).mpr (le_trans h2 h1)
  have h5 := Double.rne_ge p (2 ^ (Double.lg 4200 p - 52))
  exact Nat.mul_pos (lt_of_lt_of_le h4 h5) h3

/-- A negative-signed result of at least one unit is below zero, whether it
is finite or overflows to minus infinity. -/
theorem Double.ofUnits_true_lt_zero (n : Nat) (hn : 0 < n) : Double.ofUnits true n < 0 := by
  rw [Double.lt_def, Double.zero_def]
  unfold Double.ofUnits
  split_ifs
  · simp [Double.lt, Double.signedUnits]; omega
  · rfl

/-- If `a < b` then the computed difference `a - b` is below zero: a
difference of two doubles is at least one unit and does not round to zero. -/
theorem Double.sub_lt_zero (a b : Double) (h : a < b) : a - b < 0 := by
  cases a with
  | nan => simp [Double.lt_def, Double.lt] at h
  | inf s1 =>
    cases b with
    | nan => simp [Double.lt_def, Double.lt] at h
    | inf s2 =>
      cases s1 <;> cases s2 <;> simp [Double.lt_def, Double.lt] at h
      rfl
    | fin s2 n2 =>
      cases s1 <;> simp [Double.lt_def, Double.lt] at h
      rfl
  | fin s1 n1 =>
    cases b with
    | nan => simp [Double.lt_def, Double.lt] at h
    | inf s2 =>
      cases s2 <;> simp [Double.lt_def, Double.lt] at h
      rfl
    | fin s2 n2 =>
      rw [Double.sub_def]
      cases s1 <;> cases s2 <;>
        simp [Double.lt_def, Double.lt, Double.signedUnits] at h
      · have h1 : ¬ n2 < n1 := by omega
        simp only [Double.neg, Double.add, Bool.not_false, h1, h, if_true, if_false,
          Bool.false_eq_true]
        exact Double.ofUnits_true_lt_zero _ (Double.roundUnits_pos _ (by omega))
      · omega
      · simp only [Double.neg, Double.add, Bool.not_false, if_true]
        exact Double.ofUnits_true_lt_zero _ (Double.roundUnits_pos _ (by omega))
      · simp only [Double.neg, Double.add, Bool.not_true, h, if_true, if_false,
          Bool.true_eq_false]
        exact Double.ofUnits_true_lt_zero _ (Double.roundUnits_pos _ (by omega))

/-- A value below zero is not at or above a value that is at least zero. -/
theorem Double.not_le_of_lt_zero (d c : Double) (hd : d < 0) (hc : 0 ≤ c) : ¬ c ≤ d := by
  rw [Double.lt_def, Double.zero_def] at hd
  rw [Double.le_def, Double.zero_def] at hc
  rw [Double.le_def]
  cases d with
  | nan => simp [Double.lt] at hd
  | inf s1 =>
    cases c with
    | nan => simp [Double.le] at hc
    | inf s2 => cases s1 <;> cases s2 <;> simp [Double.lt, Double.le] at hd hc ⊢
    | fin s2 n2 => cases s1 <;> simp [Double.lt, Double.le] at hd ⊢
  | fin s1 n1 =>
    cases c with
    | nan => simp [Double.le] at hc
    | inf s2 => cases s2 <;> simp [Double.le] at hc ⊢
    | fin s2 n2 =>
      cases s1 <;> cases s2 <;> simp [Double.lt, Double.le, Double.signedUnits] at hd hc ⊢ <;>
        omega

/-- When `b <= a` holds, `a < b` does not. -/
theorem Double.not_lt_of_le (a b : Double) (h : b ≤ a) : ¬ a < b := by
  rw [Double.le_def] at h
  rw [Double.lt_def]
  cases a with
  | nan => simp [Double.lt]
  | inf s1 =>
    cases b with
    | nan => simp [Double.lt]
    | inf s2 => cases s1 <;> cases s2 <;> simp [Double.lt, Double.le] at h ⊢
    | fin s2 n2 => cases s1 <;> simp [Double.lt, Double.le] at h ⊢
  | fin s1 n1 =>
    cases b with
    | nan => simp [Double.lt]
    | inf s2 => cases s2 <;> simp [Double.lt, Double.le] at h ⊢
    | fin s2 n2 => simp [Double.lt, Double.le] at h ⊢; omega

/-- No double is below itself. -/
theorem Double.lt_irrefl (a : Double) : ¬ a < a := by
  rw [Double.lt_def]
  cases a with
  | nan => simp [Double.lt]
  | inf s => cases s <;> simp [Double.lt]
  | fin s n => simp [Double.lt]

/-- A double other than not-a-number is at most itself. -/
theorem Double.le_refl (a : Double) (ha : a ≠ Double.nan) : a ≤ a := by
  rw [Double.le_def]
  cases a with
  | nan => exact absurd rfl ha
  | inf s => cases s <;> simp [Double.le]
  | fin s n => simp [Double.le]

/-- Two doubles other than not-a-number are comparable. -/
theorem Double.le_of_not_lt (a b : Double) (ha : a ≠ Double.nan) (hb : b ≠ Double.nan)
    (h : ¬ b < a) : a ≤ b := by
  rw [Double.lt_def] at h
  rw [Double.le_def]
  cases a with
  | nan => exact absurd rfl ha
  | inf s1 =>
    cases b with
    | nan => exact absurd rfl hb
    | inf s2 => cases s1 <;> cases s2 <;> simp [Double.lt, Double.le] at h ⊢
    | fin s2 n2 => cases s1 <;> simp [Double.lt, Double.le] at h ⊢
  | fin s1 n1 =>
    cases b with
    | nan => exact absurd rfl hb
    | inf s2 => cases s2 <;> simp [Double.lt, Double.le] at h ⊢
    | fin s2 n2 => simp [Double.lt, Double.le] at h ⊢; omega

/-- With enough fuel, `n` is below the next power of two after `lg`. -/
theorem Double.lg_lt_pow (fuel : Nat) :
    ∀ n : Nat, n < 2 ^ fuel → n < 2 ^ (Double.lg fuel n + 1) := by
  induction fuel with
  | zero => intro n hn; simp at hn; subst hn; simp [Double.lg]
  | succ f ih =>
    intro n hn
    by_cases h2 : n < 2
    · simp only [Double.lg, h2, if_true]; omega
    · have h1 : n / 2 < 2 ^ f := by rw [pow_succ] at hn; omega
      have := ih (n / 2) h1
      simp only [Double.lg, h2, if_false, pow_succ] at this ⊢
      omega

/-- The position found by `lg` is at most `k` for a number below `2 ^ (k + 1)`. -/
theorem Double.lg_le (fuel n k : Nat) (h : n < 2 ^ (k + 1)) : Double.lg fuel n ≤ k := by
  by_cases hn : 1 ≤ n
  · have h1 := Double.lg_pow_le fuel n hn
    have h2 : 2 ^ Double.lg fuel n < 2 ^ (k + 1) := lt_of_le_of_lt h1 h
    have h3 := (Nat.pow_lt_pow_iff_right (by norm_num : 1 < 2)).mp h2
    omega
  · have h0 : n = 0 := by omega
    subst h0
    cases fuel <;> simp [Double.lg]

/-- The position found by `lg` reaches `k` for a number from `2 ^ k` on, fuel
permitting. -/
theorem Double.le_lg (fuel : Nat) : ∀ n k : Nat, 2 ^ k ≤ n → k ≤ fuel → k ≤ Double.lg fuel n := by
  induction fuel with
  | zero => intro n k _ hk; omega
  | succ f ih =>
    intro n k hn hk
    cases k with
    | zero => omega
    | succ k =>
      have h2 : ¬ n < 2 := by
        have : 2 ^ 1 ≤ 2 ^ (k + 1) := Nat.pow_le_pow_right (by norm_num) (by omega)
        omega
      have h1 : 2 ^ k ≤ n / 2 := by rw [pow_succ] at hn; omega
      have := ih (n / 2) k h1 (by omega)
      simp only [Double.lg, h2, if_false]
      omega

/-- Rounding to nearest is at most one above the integer part. -/
theorem Double.rne_le (p q : Nat) : Double.rne p q ≤ p / q + 1 := by
  unfold Double.rne
  simp only
  split_ifs <;> omega

/-- A multiple `m * 2 ^ s` with `m <= 2 ^ 53` has at most 53 significant
bits. -/
theorem Double.significant_bits (m s : Nat) (hm : m ≤ 2 ^ 53) :
    (m * 2 ^ s) % 2 ^ (Double.lg 4200 (m * 2 ^ s) - 52) = 0 := by
  apply Nat.mod_eq_zero_of_dvd
  by_cases h : m = 2 ^ 53
  · subst h
    rw [← pow_add]
    have h1 : Double.lg 4200 (2 ^ (53 + s)) ≤ s + 53 := by
      apply Double.lg_le
      exact Nat.pow_lt_pow_right (by norm_num) (by omega)
    exact Nat.pow_dvd_pow 2 (by omega)
  · have hlt : m < 2 ^ 53 := lt_of_le_of_ne hm h
    have h1 : Double.lg 4200 (m * 2 ^ s) ≤ s + 52 := by
      apply Double.lg_le
      calc m * 2 ^ s < 2 ^ 53 * 2 ^ s :=
            Nat.mul_lt_mul_of_pos_right hlt (Nat.pow_pos (by norm_num))
        _ = 2 ^ (s + 52 + 1) := by rw [← pow_add]; congr 1; omega
    exact Dvd.dvd.mul_left (Nat.pow_dvd_pow 2 (by omega)) m

/-- Every rounded result is a double: it is an infinity, or it is below
`2 ^ 1024` with at most 53 significant bits. -/
theorem Double.roundUnits_isDouble (neg : Bool) (p q : Nat) :
    (Double.ofUnits neg (Double.roundUnits p q)).IsDouble = true := by
  unfold Double.ofUnits
  split_ifs with hr
  · simp only [Double.IsDouble, decide_eq_true_eq]
    refine ⟨hr, ?_⟩
    unfold Double.roundUnits at hr ⊢
    simp only at hr ⊢
    apply Double.significant_bits
    -- the integer part of the scaled quotient is below 2 ^ 53
    have hdiv : p / (q * 2 ^ (Double.lg 4200 (p / q) - 52)) =
        p / q / 2 ^ (Double.lg 4200 (p / q) - 52) := (Nat.div_div_eq_div_mul _ _ _).symm
    have hle := Double.rne_le p (q * 2 ^ (Double.lg 4200 (p / q) - 52))
    have hge := Double.rne_ge p (q * 2 ^ (Double.lg 4200 (p / q) - 52))
    rw [hdiv] at hle hge
    have hpos : 0 < 2 ^ (Double.lg 4200 (p / q) - 52) := Nat.pow_pos (by norm_num)
    have hx : p / q < 2 ^ 4200 := by
      by_contra hx
      have hx' : 2 ^ 4200 ≤ p / q := not_lt.mp hx
      have hL : 4200 ≤ Double.lg 4200 (p / q) := Double.le_lg 4200 _ 4200 hx' (Nat.le_refl _)
      have hL2 : Double.lg 4200 (p / q) ≤ 4200 := by
        have : ∀ f n, Double.lg f n ≤ f := by
          intro f
          induction f with
          | zero => intro n; simp [Double.lg]
          | succ f ih => intro n; simp only [Double.lg]; split_ifs; · omega
                         · have := ih (n / 2); omega
        exact this _ _
      have hLeq : Double.lg 4200 (p / q) = 4200 := le_antisymm hL2 hL
      rw [hLeq] at hr hge
      have h1 : 2 ^ 52 ≤ p / q / 2 ^ (4200 - 52) := by
        rw [Nat.le_div_iff_mul_le (Nat.pow_pos (by norm_num))]
        rw [← pow_add]
        exact hx'
      have h2 : 2 ^ 52 * 2 ^ (4200 - 52) ≤
          Double.rne p (q * 2 ^ (4200 - 52)) * 2 ^ (4200 - 52) :=
        Nat.mul_le_mul_right _ (le_trans h1 hge)
      have h3 : (2 : Nat) ^ 2098 ≤ 2 ^ 52 * 2 ^ (4200 - 52) := by
        rw [← pow_add]; exact Nat.pow_le_pow_right (by norm_num) (by norm_num)
      omega
    have hx2 := Double.lg_lt_pow 4200 (p / q) hx
    have hx3 : p / q < 2 ^ 53 * 2 ^ (Double.lg 4200 (p / q) - 52) := by
      rw [← pow_add]
      exact lt_of_lt_of_le hx2 (Nat.pow_le_pow_right (by norm_num) (by omega))
    have hx4 : p / q / 2 ^ (Double.lg 4200 (p / q) - 52) < 2 ^ 53 :=
      (Nat.div_lt_iff_lt_mul hpos).mpr hx3
    omega
  · rfl

/-- Both zeros are doubles. -/
theorem Double.zero_isDouble (s : Bool) : (Double.fin s 0).IsDouble = true := by
  simp only [Double.IsDouble, decide_eq_true_eq, Nat.zero_mod, and_true]
  exact Nat.pow_pos (by norm_num)

/-- Negation maps doubles to doubles. -/
theorem Double.neg_isDouble (a : Double) (h : a.IsDouble = true) : (-a).IsDouble = true := by
  cases a with
  | nan => rfl
  | inf s => rfl
  | fin s n => exact h

/-- Addition always yields a double. -/
theorem Double.add_isDouble (a b : Double) : (a + b).IsDouble = true := by
  show (Double.add a b).IsDouble = true
  cases a with
  | nan => cases b <;> rfl
  | inf s1 =>
    cases b with
    | nan => rfl
    | inf s2 => simp only [Double.add]; split_ifs <;> rfl
    | fin s2 n2 => rfl
  | fin s1 n1 =>
    cases b with
    | nan => rfl
    | inf s2 => rfl
    | fin s2 n2 =>
      simp only [Double.add]
      split_ifs
      · exact Double.roundUnits_isDouble _ _ _
      · exact Double.roundUnits_isDouble _ _ _
      · exact Double.roundUnits_isDouble _ _ _
      · exact Double.zero_isDouble false

/-- Subtraction always yields a double. -/
theorem Double.sub_isDouble (a b : Double) : (a - b).IsDouble = true :=
  Double.add_isDouble a (-b)

/-- Multiplication always yields a double. -/
theorem Double.mul_isDouble (a b : Double) : (a * b).IsDouble = true := by
  show (Double.mul a b).IsDouble = true
  cases a with
  | nan => cases b <;> rfl
  | inf s1 =>
    cases b with
    | nan => rfl
    | inf s2 => rfl
    | fin s2 n2 => simp only [Double.mul]; split_ifs <;> rfl
  | fin s1 n1 =>
    cases b with
    | nan => rfl
    | inf s2 => simp only [Double.mul]; split_ifs <;> rfl
    | fin s2 n2 => exact Double.roundUnits_isDouble _ _ _

/-- Division always yields a double. -/
theorem Double.div_isDouble (a b : Double) : (a / b).IsDouble = true := by
  show (Double.div a b).IsDouble = true
  cases a with
  | nan => cases b <;> rfl
  | inf s1 =>
    cases b with
    | nan => rfl
    | inf s2 => rfl
    | fin s2 n2 => rfl
  | fin s1 n1 =>
    cases b with
    | nan => rfl
    | inf s2 => exact Double.zero_isDouble _
    | fin s2 n2 =>
      simp only [Double.div]
      split_ifs
      · rfl
      · rfl
      · exact Double.roundUnits_isDouble _ _ _

/-- Every literal is a double. -/
theorem Double.lit_isDouble (p q : Nat) : (Double.lit p q).IsDouble = true :=
  Double.roundUnits_isDouble _ _ _

/-! ## Theorems: the odometry integrator -/

/-- The reset branch of `Accumulate`, as an equation. -/
theorem Accumulate_of_gt (m : Libm)
    (o : SimpleOdometry) (st : vehicleStatus) (h : o.LastClock > st.simClock) :
    o.Accumulate m st =
      (-1, { o with LastClock := st.simClock, X := 0, Y := 0, Th := 0 }) := by
  simp only [SimpleOdometry.Accumulate, if_pos h]

/-- The skipped branch of `Accumulate`, as an equation. -/
theorem Accumulate_of_small (m : Libm)
    (o : SimpleOdometry) (st : vehicleStatus) (h : ¬ o.LastClock > st.simClock)
    (hdt : st.simClock - o.LastClock < Double.lit 1 1000) :
    o.Accumulate m st = (0, o) := by
  simp only [SimpleOdometry.Accumulate, if_neg h, if_pos hdt]

/-- The update branch of `Accumulate`, as an equation. -/
theorem Accumulate_of_large (m : Libm)
    (o : SimpleOdometry) (st : vehicleStatus) (h : ¬ o.LastClock > st.simClock)
    (hdt : ¬ st.simClock - o.LastClock < Double.lit 1 1000) :
    o.Accumulate m st =
      (1, { o with
              LastClock := st.simClock
              X := o.X + (-st.rrpm * o.Info.WheelPerimeterR / o.Info.ReductionRatio /
                      Double.lit 60 1 +
                    st.lrpm * o.Info.WheelPerimeterL / o.Info.ReductionRatio /
                      Double.lit 60 1) / Double.lit 2 1 *
                    m.cos o.Th * (st.simClock - o.LastClock)
              Y := o.Y + (-st.rrpm * o.Info.WheelPerimeterR / o.Info.ReductionRatio /
                      Double.lit 60 1 +
                    st.lrpm * o.Info.WheelPerimeterL / o.Info.ReductionRatio /
                      Double.lit 60 1) / Double.lit 2 1 *
                    m.sin o.Th * (st.simClock - o.LastClock)
              Th := o.Th + st.rz * (st.simClock - o.LastClock)
              Vx := (-st.rrpm * o.Info.WheelPerimeterR / o.Info.ReductionRatio /
                      Double.lit 60 1 +
                    st.lrpm * o.Info.WheelPerimeterL / o.Info.ReductionRatio /
                      Double.lit 60 1) / Double.lit 2 1
              Az := st.rz }) := by
  simp only [SimpleOdometry.Accumulate, if_neg h, if_neg hdt]

/-- The value returned by `Accumulate` is always one of -1, 0, 1. -/
theorem Accumulate_ret_cases (m : Libm)
    (o : SimpleOdometry) (st : vehicleStatus) :
    (o.Accumulate m st).1 = -1 ∨ (o.Accumulate m st).1 = 0 ∨ (o.Accumulate m st).1 = 1 := by
  by_cases h : o.LastClock > st.simClock
  · rw [Accumulate_of_gt m o st h]; exact Or.inl rfl
  · by_cases hdt : st.simClock - o.LastClock < Double.lit 1 1000
    · rw [Accumulate_of_small m o st h hdt]; exact Or.inr (Or.inl rfl)
    · rw [Accumulate_of_large m o st h hdt]; exact Or.inr (Or.inr rfl)

/-- The double `0.001` is at least zero. -/
theorem zero_le_millisecond : (0 : Double) ≤ Double.lit 1 1000 := by decide!

/-- When the computed `dt = simClock - LastClock` is at least zero, or at least
`0.001`, the reset test `LastClock > simClock` of line 245 is false. -/
theorem not_reset_of_dt (o : SimpleOdometry) (st : vehicleStatus) (c : Double)
    (hc : 0 ≤ c) (h : c ≤ st.simClock - o.LastClock) : ¬ o.LastClock > st.simClock := by
  intro hgt
  exact Double.not_le_of_lt_zero _ c (Double.sub_lt_zero _ _ hgt) hc h

/-- The rounding of line 254 is part of the embedding: at `LastClock = 0.0003`
and `simClock = 0.0013` the computed `dt` is the double `0.001` itself, the
test `dt < 0.001` fails and `Accumulate` returns 1. -/
theorem accumulate_rounded_dt :
    (scenarioStatus (Double.lit 13 10000)).simClock - (scenarioOdometry (Double.lit 3 10000)).LastClock
      = Double.lit 1 1000 ∧
    ((scenarioOdometry (Double.lit 3 10000)).Accumulate libmAtZero
      (scenarioStatus (Double.lit 13 10000))).1 = 1 := by
  have h1 : ¬ (scenarioOdometry (Double.lit 3 10000)).LastClock >
      (scenarioStatus (Double.lit 13 10000)).simClock := by decide!
  have h2 : ¬ (scenarioStatus (Double.lit 13 10000)).simClock -
      (scenarioOdometry (Double.lit 3 10000)).LastClock < Double.lit 1 1000 := by decide!
  refine ⟨by decide!, ?_⟩
  rw [Accumulate_of_large _ _ _ h1 h2]

/-- Division by zero is part of the embedding: with `ReductionRatio = 0` the
update stores `Vx = +infinity`, `X = +infinity` and `Y = not-a-number`. -/
theorem accumulate_zero_ratio :
    (SimpleOdometry.Accumulate libmAtZero
      { scenarioOdometry (Double.lit 5 1) with
        Info := { scenarioInfo with ReductionRatio := 0 } }
      (scenarioStatus (Double.lit 6 1))).2.Vx = Double.inf false ∧
    (SimpleOdometry.Accumulate libmAtZero
      { scenarioOdometry (Double.lit 5 1) with
        Info := { scenarioInfo with ReductionRatio := 0 } }
      (scenarioStatus (Double.lit 6 1))).2.X = Double.inf false ∧
    (SimpleOdometry.Accumulate libmAtZero
      { scenarioOdometry (Double.lit 5 1) with
        Info := { scenarioInfo with ReductionRatio := 0 } }
      (scenarioStatus (Double.lit 6 1))).2.Y = Double.nan := by
  decide!

/-- C1: when the sample's `simClock` is strictly less than `LastClock`,
`Accumulate` returns RESET (-1), sets `LastClock` to the sample's clock, zeroes
`X`, `Y` and `Th`, and leaves `Vx`, `Az` (and the geometry) unchanged, whatever
the other fields of the sample are. -/
theorem accumulate_reset (m : Libm)
    (o : SimpleOdometry) (st : vehicleStatus) (h : st.simClock < o.LastClock) :
    (o.Accumulate m st).1 = RESET ∧
    (o.Accumulate m st).2.LastClock = st.simClock ∧
    (o.Accumulate m st).2.X = 0 ∧ (o.Accumulate m st).2.Y = 0 ∧
    (o.Accumulate m st).2.Th = 0 ∧
    (o.Accumulate m st).2.Vx = o.Vx ∧ (o.Accumulate m st).2.Az = o.Az ∧
    (o.Accumulate m st).2.Info = o.Info := by
  rw [Accumulate_of_gt m o st h]
  exact ⟨rfl, rfl, rfl, rfl, rfl, rfl, rfl, rfl⟩

/-- Witness of C1: last clock 7, pose (3, 4, 1), velocities (2, 1), sample
clock 2: the call returns -1 with pose (0, 0, 0) and the velocities kept. -/
theorem accumulate_reset_witness :
    (scenarioStatus (Double.lit 2 1)).simClock < (scenarioMoving (Double.lit 7 1)).LastClock ∧
    ((scenarioMoving (Double.lit 7 1)).Accumulate libmAtZero
        (scenarioStatus (Double.lit 2 1))).1 = RESET ∧
    ((scenarioMoving (Double.lit 7 1)).Accumulate libmAtZero
        (scenarioStatus (Double.lit 2 1))).2.X = 0 ∧
    ((scenarioMoving (Double.lit 7 1)).Accumulate libmAtZero
        (scenarioStatus (Double.lit 2 1))).2.Vx = (scenarioMoving (Double.lit 7 1)).Vx := by
  have hlt : (scenarioStatus (Double.lit 2 1)).simClock <
      (scenarioMoving (Double.lit 7 1)).LastClock := by decide!
  have h := accumulate_reset libmAtZero (scenarioMoving (Double.lit 7 1))
    (scenarioStatus (Double.lit 2 1)) hlt
  exact ⟨hlt, h.1, h.2.2.1, h.2.2.2.2.2.1⟩

/-- C2: when the difference `simClock - LastClock` (the double computed on
line 254) satisfies `0 <= simClock - LastClock < 0.001`, `Accumulate` returns
SKIPPED (0) and the integrator after the call equals the integrator before it
(`LastClock`, `X`, `Y`, `Th`, `Vx`, `Az` all unchanged). -/
theorem accumulate_skipped (m : Libm)
    (o : SimpleOdometry) (st : vehicleStatus)
    (h0 : 0 ≤ st.simClock - o.LastClock)
    (h1 : st.simClock - o.LastClock < Double.lit 1 1000) :
    (o.Accumulate m st).1 = SKIPPED ∧ (o.Accumulate m st).2 = o := by
  have h2 : ¬ o.LastClock > st.simClock :=
    not_reset_of_dt o st 0 (Double.le_refl 0 (by decide)) h0
  rw [Accumulate_of_small m o st h2 h1]
  exact ⟨rfl, rfl⟩

/-- Witness of C2: last clock 5.0, pose (0, 0, 0), sample clock 5.0005. -/
theorem accumulate_skipped_witness :
    (0 : Double) ≤ (scenarioStatus (Double.lit 50005 10000)).simClock -
        (scenarioOdometry (Double.lit 5 1)).LastClock ∧
    (scenarioStatus (Double.lit 50005 10000)).simClock -
        (scenarioOdometry (Double.lit 5 1)).LastClock < Double.lit 1 1000 ∧
    (SimpleOdometry.Accumulate libmAtZero (scenarioOdometry (Double.lit 5 1))
        (scenarioStatus (Double.lit 50005 10000))).1 = SKIPPED ∧
    (SimpleOdometry.Accumulate libmAtZero (scenarioOdometry (Double.lit 5 1))
        (scenarioStatus (Double.lit 50005 10000))).2 = scenarioOdometry (Double.lit 5 1) := by
  have ha : (0 : Double) ≤ (scenarioStatus (Double.lit 50005 10000)).simClock -
      (scenarioOdometry (Double.lit 5 1)).LastClock := by decide!
  have hb : (scenarioStatus (Double.lit 50005 10000)).simClock -
      (scenarioOdometry (Double.lit 5 1)).LastClock < Double.lit 1 1000 := by decide!
  exact ⟨ha, hb, accumulate_skipped libmAtZero _ _ ha hb⟩

/-- C3: when the difference `simClock - LastClock` (the double computed on
line 254) is at least `0.001`, `Accumulate` returns UPDATED (1) and performs
the Euler step, every operation being the double operation of the source, with
`dt = simClock - LastClock`,
`vr = -rrpm * WheelPerimeterR / ReductionRatio / 60`,
`vl = lrpm * WheelPerimeterL / ReductionRatio / 60`, `vx = (vr + vl) / 2`:
`X = x0 + vx * cos(th0) * dt`, `Y = y0 + vx * sin(th0) * dt`,
`Th = th0 + rz * dt`, `Vx = vx`, `Az = rz`, `LastClock = simClock`; the
displacement uses the heading from before the step. -/
theorem accumulate_updated (m : Libm)
    (o : SimpleOdometry) (st : vehicleStatus)
    (h : st.simClock - o.LastClock ≥ Double.lit 1 1000) :
    (o.Accumulate m st).1 = UPDATED ∧
    (o.Accumulate m st).2.X =
      o.X + ((-st.rrpm * o.Info.WheelPerimeterR / o.Info.ReductionRatio / Double.lit 60 1 +
              st.lrpm * o.Info.WheelPerimeterL / o.Info.ReductionRatio / Double.lit 60 1) /
              Double.lit 2 1) *
            m.cos o.Th * (st.simClock - o.LastClock) ∧
    (o.Accumulate m st).2.Y =
      o.Y + ((-st.rrpm * o.Info.WheelPerimeterR / o.Info.ReductionRatio / Double.lit 60 1 +
              st.lrpm * o.Info.WheelPerimeterL / o.Info.ReductionRatio / Double.lit 60 1) /
              Double.lit 2 1) *
            m.sin o.Th * (st.simClock - o.LastClock) ∧
    (o.Accumulate m st).2.Th = o.Th + st.rz * (st.simClock - o.LastClock) ∧
    (o.Accumulate m st).2.Vx =
      (-st.rrpm * o.Info.WheelPerimeterR / o.Info.ReductionRatio / Double.lit 60 1 +
        st.lrpm * o.Info.WheelPerimeterL / o.Info.ReductionRatio / Double.lit 60 1) /
        Double.lit 2 1 ∧
    (o.Accumulate m st).2.Az = st.rz ∧
    (o.Accumulate m st).2.LastClock = st.simClock := by
  have h2 : ¬ o.LastClock > st.simClock :=
    not_reset_of_dt o st (Double.lit 1 1000) zero_le_millisecond h
  have h3 : ¬ st.simClock - o.LastClock < Double.lit 1 1000 := Double.not_lt_of_le _ _ h
  rw [Accumulate_of_large m o st h2 h3]
  exact ⟨rfl, rfl, rfl, rfl, rfl, rfl, rfl⟩

/-- Witness of C3: heading 0, `rrpm = -600`, `lrpm = 600`, both perimeters
0.5, reduction ratio 1, `dt = 1.0` (clock 5 to 6): `vx = 5`, `X` goes from 0
to 5 and `Y` stays 0. -/
theorem accumulate_updated_witness :
    (scenarioStatus (Double.lit 6 1)).simClock - (scenarioOdometry (Double.lit 5 1)).LastClock
      ≥ Double.lit 1 1000 ∧
    (scenarioStatus (Double.lit 6 1)).simClock - (scenarioOdometry (Double.lit 5 1)).LastClock
      = 1 ∧
    (SimpleOdometry.Accumulate libmAtZero (scenarioOdometry (Double.lit 5 1))
        (scenarioStatus (Double.lit 6 1))).1 = UPDATED ∧
    (SimpleOdometry.Accumulate libmAtZero (scenarioOdometry (Double.lit 5 1))
        (scenarioStatus (Double.lit 6 1))).2.Vx = Double.lit 5 1 ∧
    (SimpleOdometry.Accumulate libmAtZero (scenarioOdometry (Double.lit 5 1))
        (scenarioStatus (Double.lit 6 1))).2.X = Double.lit 5 1 ∧
    (SimpleOdometry.Accumulate libmAtZero (scenarioOdometry (Double.lit 5 1))
        (scenarioStatus (Double.lit 6 1))).2.Y = 0 := by
  have hdt : (scenarioStatus (Double.lit 6 1)).simClock -
      (scenarioOdometry (Double.lit 5 1)).LastClock ≥ Double.lit 1 1000 := by decide!
  have h := accumulate_updated libmAtZero (scenarioOdometry (Double.lit 5 1))
    (scenarioStatus (Double.lit 6 1)) hdt
  refine ⟨hdt, by decide!, h.1, ?_, ?_, ?_⟩
  · rw [h.2.2.2.2.1]; decide!
  · rw [h.2.1]; decide!
  · rw [h.2.2.1]; decide!

/-- C4, as the code has it: for every geometry and every sample whose
`simClock` is strictly less than the largest finite double (the initial
`LastClock`), the first `Accumulate` call on a freshly constructed integrator
takes the reset branch: it returns RESET (-1), sets `LastClock` to the
sample's clock and leaves the pose at (0, 0, 0). -/
theorem accumulate_first_sample (m : Libm)
    (info : vehicleInfo) (st : vehicleStatus) (h : st.simClock < DBL_MAX) :
    ((SimpleOdometry.new info).Accumulate m st).1 = RESET ∧
    ((SimpleOdometry.new info).Accumulate m st).2.LastClock = st.simClock ∧
    ((SimpleOdometry.new info).Accumulate m st).2.X = 0 ∧
    ((SimpleOdometry.new info).Accumulate m st).2.Y = 0 ∧
    ((SimpleOdometry.new info).Accumulate m st).2.Th = 0 := by
  have h1 : (SimpleOdometry.new info).LastClock > st.simClock := h
  rw [Accumulate_of_gt m _ st h1]
  exact ⟨rfl, rfl, rfl, rfl, rfl⟩

/-- Witness of C4: first sample with clock 10.0. -/
theorem accumulate_first_sample_witness :
    (scenarioStatus (Double.lit 10 1)).simClock < DBL_MAX ∧
    ((SimpleOdometry.new scenarioInfo).Accumulate libmAtZero
        (scenarioStatus (Double.lit 10 1))).1 = RESET ∧
    ((SimpleOdometry.new scenarioInfo).Accumulate libmAtZero
        (scenarioStatus (Double.lit 10 1))).2.LastClock =
      (scenarioStatus (Double.lit 10 1)).simClock := by
  have hlt : (scenarioStatus (Double.lit 10 1)).simClock < DBL_MAX := by decide!
  have h := accumulate_first_sample libmAtZero scenarioInfo
    (scenarioStatus (Double.lit 10 1)) hlt
  exact ⟨hlt, h.1, h.2.1⟩

/-- C4 as stated fails: a first sample whose clock is the largest finite
double does not take the reset branch; `Accumulate` returns SKIPPED (0) and
the integrator is unchanged. -/
theorem accumulate_first_sample_at_max :
    DBL_MAX.IsDouble = true ∧
    ((SimpleOdometry.new scenarioInfo).Accumulate libmAtZero
        (scenarioStatus DBL_MAX)).1 = SKIPPED ∧
    ((SimpleOdometry.new scenarioInfo).Accumulate libmAtZero
        (scenarioStatus DBL_MAX)).1 ≠ RESET ∧
    ((SimpleOdometry.new scenarioInfo).Accumulate libmAtZero
        (scenarioStatus DBL_MAX)).2 = SimpleOdometry.new scenarioInfo := by
  have h1 : ¬ (SimpleOdometry.new scenarioInfo).LastClock >
      (scenarioStatus DBL_MAX).simClock := Double.lt_irrefl DBL_MAX
  have h2 : (scenarioStatus DBL_MAX).simClock -
      (SimpleOdometry.new scenarioInfo).LastClock < Double.lit 1 1000 := by decide!
  rw [Accumulate_of_small _ _ _ h1 h2]
  refine ⟨by decide!, rfl, ?_, rfl⟩
  simp [RESET]

/-- C9, as the code has it: when neither `LastClock` before the call nor the
sample's `simClock` is not-a-number, a call that returns SKIPPED or UPDATED
leaves `LastClock` at least as large as before; for every state and sample,
`LastClock` is strictly smaller after the call only when `Accumulate` returns
RESET; and `Reset(x, y, th)` leaves `LastClock` unchanged. -/
theorem lastClock_never_decreases (m : Libm)
    (o : SimpleOdometry) (st : vehicleStatus) :
    (o.LastClock ≠ Double.nan → st.simClock ≠ Double.nan →
      ((o.Accumulate m st).1 = SKIPPED ∨ (o.Accumulate m st).1 = UPDATED) →
        o.LastClock ≤ (o.Accumulate m st).2.LastClock) ∧
    ((o.Accumulate m st).2.LastClock < o.LastClock → (o.Accumulate m st).1 = RESET) ∧
    (∀ x y th : Double, (o.Reset x y th).LastClock = o.LastClock) := by
  refine ⟨?_, ?_, fun _ _ _ => rfl⟩
  · intro hl hs
    by_cases h : o.LastClock > st.simClock
    · rw [Accumulate_of_gt m o st h]
      intro hret
      rcases hret with hret | hret <;> simp [SKIPPED, UPDATED] at hret
    · by_cases hdt : st.simClock - o.LastClock < Double.lit 1 1000
      · rw [Accumulate_of_small m o st h hdt]
        intro _
        exact Double.le_refl _ hl
      · rw [Accumulate_of_large m o st h hdt]
        intro _
        exact Double.le_of_not_lt _ _ hl hs h
  · by_cases h : o.LastClock > st.simClock
    · rw [Accumulate_of_gt m o st h]
      intro _
      rfl
    · by_cases hdt : st.simClock - o.LastClock < Double.lit 1 1000
      · rw [Accumulate_of_small m o st h hdt]
        intro hlt
        exact absurd hlt (Double.lt_irrefl _)
      · rw [Accumulate_of_large m o st h hdt]
        intro hlt
        exact absurd hlt h

/-- Witness of C9: last clock 5, sample clock 6, neither not-a-number; the
call returns UPDATED and `LastClock` does not decrease. -/
theorem lastClock_never_decreases_witness :
    (scenarioOdometry (Double.lit 5 1)).LastClock ≠ Double.nan ∧
    (scenarioStatus (Double.lit 6 1)).simClock ≠ Double.nan ∧
    ((scenarioOdometry (Double.lit 5 1)).Accumulate libmAtZero
        (scenarioStatus (Double.lit 6 1))).1 = UPDATED ∧
    (scenarioOdometry (Double.lit 5 1)).LastClock ≤
      ((scenarioOdometry (Double.lit 5 1)).Accumulate libmAtZero
        (scenarioStatus (Double.lit 6 1))).2.LastClock := by
  have hl : (scenarioOdometry (Double.lit 5 1)).LastClock ≠ Double.nan := by decide!
  have hs : (scenarioStatus (Double.lit 6 1)).simClock ≠ Double.nan := by decide!
  have h1 : ¬ (scenarioOdometry (Double.lit 5 1)).LastClock >
      (scenarioStatus (Double.lit 6 1)).simClock := by decide!
  have h2 : ¬ (scenarioStatus (Double.lit 6 1)).simClock -
      (scenarioOdometry (Double.lit 5 1)).LastClock < Double.lit 1 1000 := by decide!
  have hret : ((scenarioOdometry (Double.lit 5 1)).Accumulate libmAtZero
      (scenarioStatus (Double.lit 6 1))).1 = UPDATED := by
    rw [Accumulate_of_large _ _ _ h1 h2]; rfl
  exact ⟨hl, hs, hret,
    (lastClock_never_decreases libmAtZero (scenarioOdometry (Double.lit 5 1))
      (scenarioStatus (Double.lit 6 1))).1 hl hs (Or.inr hret)⟩

/-- C9 as stated fails: with `LastClock = 100` a sample whose clock is
not-a-number fails both tests of lines 245 and 257, so `Accumulate` returns
UPDATED and stores not-a-number, which is not at least 100; from there a
sample with clock 5 is UPDATED as well and stores 5, below the 100 of two
calls earlier, and neither call returned RESET. -/
theorem lastClock_nan_sample :
    ((scenarioOdometry (Double.lit 100 1)).Accumulate libmAtZero
        (scenarioStatus Double.nan)).1 = UPDATED ∧
    ((scenarioOdometry (Double.lit 100 1)).Accumulate libmAtZero
        (scenarioStatus Double.nan)).2.LastClock = Double.nan ∧
    ¬ ((scenarioOdometry (Double.lit 100 1)).LastClock ≤
        ((scenarioOdometry (Double.lit 100 1)).Accumulate libmAtZero
          (scenarioStatus Double.nan)).2.LastClock) ∧
    ((((scenarioOdometry (Double.lit 100 1)).Accumulate libmAtZero
        (scenarioStatus Double.nan)).2).Accumulate libmAtZero
          (scenarioStatus (Double.lit 5 1))).1 = UPDATED ∧
    ((((scenarioOdometry (Double.lit 100 1)).Accumulate libmAtZero
        (scenarioStatus Double.nan)).2).Accumulate libmAtZero
          (scenarioStatus (Double.lit 5 1))).2.LastClock = Double.lit 5 1 ∧
    Double.lit 5 1 < Double.lit 100 1 := by
  decide!

/-- C10: `Reset()` (all arguments at their default 0) yields `X = Y = Th = 0`;
`Reset(x, y, th)` sets the pose to exactly `(x, y, th)`; neither touches
`LastClock`, `Vx` or `Az`; and `Reset` is idempotent. -/
theorem reset_pose (o : SimpleOdometry) (x y th : Double) :
    ((o.Reset 0 0 0).X = 0 ∧ (o.Reset 0 0 0).Y = 0 ∧ (o.Reset 0 0 0).Th = 0) ∧
    ((o.Reset x y th).X = x ∧ (o.Reset x y th).Y = y ∧ (o.Reset x y th).Th = th) ∧
    ((o.Reset 0 0 0).LastClock = o.LastClock ∧ (o.Reset 0 0 0).Vx = o.Vx ∧
      (o.Reset 0 0 0).Az = o.Az) ∧
    ((o.Reset x y th).LastClock = o.LastClock ∧ (o.Reset x y th).Vx = o.Vx ∧
      (o.Reset x y th).Az = o.Az) ∧
    (o.Reset x y th).Reset x y th = o.Reset x y th ∧
    (o.Reset 0 0 0).Reset 0 0 0 = o.Reset 0 0 0 :=
  ⟨⟨rfl, rfl, rfl⟩, ⟨rfl, rfl, rfl⟩, ⟨rfl, rfl, rfl⟩, ⟨rfl, rfl, rfl⟩, rfl, rfl⟩

/-! ## Theorems: the bridge lifecycle -/

/-- The wiring the constructor builds, written out. -/
theorem Wired_unfold (b : CageRosBridgeMain) (h : b.Wired) :
    b.rosIF =
      { Publishers :=
          [ { topic := "imu", kind := MsgKind.Imu, qlen := 100,
              frame_id := "base_link", child_frame_id := "imu_link" },
            { topic := "odom", kind := MsgKind.Odometry, qlen := 100,
              frame_id := "odom", child_frame_id := "base_link" },
            { topic := "odom_gt", kind := MsgKind.Odometry, qlen := 100,
              frame_id := "odom", child_frame_id := "base_link_gt" },
            { topic := "gps/fix", kind := MsgKind.NavSatFix, qlen := 100,
              frame_id := "base_link", child_frame_id := "latlon" } ],
        ImuId := 0 } ∧
    b.pubOdom = 1 ∧ b.pubOdom_gt = 2 ∧ b.pubLatLon = 3 := by
  obtain ⟨h1, h2, h3, h4⟩ := h
  exact ⟨h1.trans rfl, h2.trans rfl, h3.trans rfl, h4.trans rfl⟩

/-- `Spin` when the status fetch fails. -/
theorem Spin_fetch_failed (m : Libm) (t : Tf2)
    (Cage : CageAPI) (stamp : Stamp) (b : CageRosBridgeMain)
    (hst : Cage.getStatusOne = none) :
    b.Spin m t Cage stamp =
      some ({ b with Err := "getStatus failed:" ++ Cage.getError, Ok := false }, []) := by
  simp only [CageRosBridgeMain.Spin, hst]

/-- `Spin` when `Accumulate` returns -1. -/
theorem Spin_reset (m : Libm) (t : Tf2)
    (Cage : CageAPI) (stamp : Stamp) (b : CageRosBridgeMain) (odo : SimpleOdometry)
    (st : vehicleStatus) (hodo : b.Odo = some odo) (hst : Cage.getStatusOne = some st)
    (hret : (odo.Accumulate m st).1 = -1) :
    b.Spin m t Cage stamp =
      some ({ b with Seq := (b.Seq + 1) % 2 ^ 64, Odo := some (odo.Accumulate m st).2,
                     Ok := false, Err := "World restart detected" }, []) := by
  simp [CageRosBridgeMain.Spin, hst, hodo, hret]

/-- `Spin` when `Accumulate` returns 0. -/
theorem Spin_skipped (m : Libm) (t : Tf2)
    (Cage : CageAPI) (stamp : Stamp) (b : CageRosBridgeMain) (odo : SimpleOdometry)
    (st : vehicleStatus) (hodo : b.Odo = some odo) (hst : Cage.getStatusOne = some st)
    (hret : (odo.Accumulate m st).1 = 0) :
    b.Spin m t Cage stamp =
      some ({ b with Seq := (b.Seq + 1) % 2 ^ 64, Odo := some (odo.Accumulate m st).2 },
            []) := by
  simp [CageRosBridgeMain.Spin, hst, hodo, hret]

/-- `Spin` when `Accumulate` returns 1, on a bridge wired by the constructor:
the eight records emitted, in order. -/
theorem Spin_updated (m : Libm) (t : Tf2)
    (Cage : CageAPI) (stamp : Stamp) (b : CageRosBridgeMain) (odo : SimpleOdometry)
    (st : vehicleStatus) (hw : b.Wired) (hodo : b.Odo = some odo)
    (hst : Cage.getStatusOne = some st) (hret : (odo.Accumulate m st).1 = 1) :
    b.Spin m t Cage stamp =
      some ({ b with Seq := (b.Seq + 1) % 2 ^ 64, Odo := some (odo.Accumulate m st).2 },
        [ Record.odometry "odom"
            { frame_id := "odom", stamp := stamp, child_frame_id := "base_link"
              position := ⟨(odo.Accumulate m st).2.X, (odo.Accumulate m st).2.Y, 0⟩
              orientation := t.setRPY 0 0 (odo.Accumulate m st).2.Th
              pose_covariance := zeroCovariance36
              linear := ⟨(odo.Accumulate m st).2.Vx, 0, 0⟩
              angular := ⟨0, 0, (odo.Accumulate m st).2.Az⟩
              twist_covariance := zeroCovariance36 },
          Record.transform
            { stamp := stamp, frame_id := "odom", child_frame_id := "base_link"
              translation := ⟨(odo.Accumulate m st).2.X, (odo.Accumulate m st).2.Y, 0⟩
              rotation := t.setRPY 0 0 (odo.Accumulate m st).2.Th },
          Record.odometry "odom_gt"
            { frame_id := "odom", stamp := stamp, child_frame_id := "base_link_gt"
              position := ⟨st.wx, st.wy, st.wz⟩
              orientation := ⟨st.ox, st.oy, st.oz, st.ow⟩
              pose_covariance := zeroCovariance36
              linear := ⟨(odo.Accumulate m st).2.Vx, 0, 0⟩
              angular := ⟨0, 0, st.rz⟩
              twist_covariance := zeroCovariance36 },
          Record.transform
            { stamp := stamp, frame_id := "odom", child_frame_id := "base_link_gt"
              translation := ⟨st.wx, st.wy, st.wz⟩
              rotation := ⟨st.ox, st.oy, st.oz, st.ow⟩ },
          Record.imu "imu"
            { frame_id := "base_link", stamp := stamp
              orientation := ⟨st.ox, st.oy, st.oz, st.ow⟩
              orientation_covariance := zeroCovariance9
              angular_velocity := ⟨st.rx, st.ry, st.rz⟩
              angular_velocity_covariance := zeroCovariance9
              linear_acceleration := ⟨st.ax, st.ay, st.az⟩
              linear_acceleration_covariance := zeroCovariance9 },
          Record.transform
            { stamp := stamp, frame_id := "base_link", child_frame_id := "imu_link"
              translation := ⟨b.IMUTransform.trans.e0, b.IMUTransform.trans.e1,
                              b.IMUTransform.trans.e2⟩
              rotation := ⟨b.IMUTransform.rot.e1, b.IMUTransform.rot.e2,
                           b.IMUTransform.rot.e3, b.IMUTransform.rot.e0⟩ },
          Record.navSatFix "gps/fix"
            { frame_id := "latlon", stamp := stamp
              service := SERVICE_GPS, status := STATUS_FIX
              latitude := st.latitude, longitude := st.longitude
              altitude := Double.nan
              position_covariance := [1, 0, 0, 0, 1, 0, 0, 0, 1]
              position_covariance_type := COVARIANCE_TYPE_APPROXIMATED },
          Record.transform
            { stamp := stamp, frame_id := "base_link", child_frame_id := "lidar3d_link"
              translation := ⟨b.LidarTransform.trans.e0, b.LidarTransform.trans.e1,
                              b.LidarTransform.trans.e2⟩
              rotation := b.QLidar } ]) := by
  obtain ⟨h1, h2, h3, h4⟩ := Wired_unfold b hw
  simp [CageRosBridgeMain.Spin, hst, hodo, hret, h1, h2, h3, h4, RosBridge.PublishOdom,
    RosBridge.PublishIMU, RosBridge.PublishNavSat, RosBridge.PublishTFTransform,
    RosBridge.BuildNavMsg, toSizeT, SERVICE_GPS, STATUS_FIX]

/-- When `Accumulate` returns 1 the stored yaw rate is the sample's `rz`. -/
theorem Accumulate_updated_Az (m : Libm)
    (o : SimpleOdometry) (st : vehicleStatus) (h : (o.Accumulate m st).1 = 1) :
    (o.Accumulate m st).2.Az = st.rz := by
  by_cases hgt : o.LastClock > st.simClock
  · rw [Accumulate_of_gt m o st hgt] at h; simp at h
  · by_cases hdt : st.simClock - o.LastClock < Double.lit 1 1000
    · rw [Accumulate_of_small m o st hgt hdt] at h; simp at h
    · rw [Accumulate_of_large m o st hgt hdt]

/-- A text that starts with a non-empty literal is not empty. -/
theorem append_ne_empty (a b : String) (ha : a ≠ "") : a ++ b ≠ "" := by
  intro h
  apply ha
  have h1 : (a ++ b).data = [] := by rw [h]
  rw [String.data_append] at h1
  have h2 : a.data = [] := (List.append_eq_nil.mp h1).1
  exact String.ext h2

/-- C5: one `Spin` cycle on a bridge wired by the constructor, for every
integrator state: it emits records if and only if the status fetch succeeds
and `Accumulate` returns UPDATED; on a failed fetch `Ok` becomes false with
`Err = "getStatus failed:" + client error`; on RESET `Ok` becomes false with
`Err = "World restart detected"`; on SKIPPED and on UPDATED `Ok` and `Err`
are unchanged, and on SKIPPED nothing is emitted; so on a healthy bridge `Ok`
is false afterwards exactly when the fetch failed or `Accumulate` returned
RESET. -/
theorem spin_outcomes (m : Libm) (t : Tf2)
    (Cage : CageAPI) (stamp : Stamp) (b : CageRosBridgeMain) (odo : SimpleOdometry)
    (hw : b.Wired) (hodo : b.Odo = some odo) :
    ∃ b1 out, b.Spin m t Cage stamp = some (b1, out) ∧
      (out ≠ [] ↔ ∃ st, Cage.getStatusOne = some st ∧ (odo.Accumulate m st).1 = UPDATED) ∧
      (Cage.getStatusOne = none →
        b1.Ok = false ∧ b1.Err = "getStatus failed:" ++ Cage.getError) ∧
      (∀ st, Cage.getStatusOne = some st → (odo.Accumulate m st).1 = RESET →
        b1.Ok = false ∧ b1.Err = "World restart detected") ∧
      (∀ st, Cage.getStatusOne = some st → (odo.Accumulate m st).1 = SKIPPED →
        out = [] ∧ b1.Ok = b.Ok ∧ b1.Err = b.Err) ∧
      (∀ st, Cage.getStatusOne = some st → (odo.Accumulate m st).1 = UPDATED →
        b1.Ok = b.Ok ∧ b1.Err = b.Err) ∧
      (b.Ok = true →
        (b1.Ok = false ↔
          (Cage.getStatusOne = none ∨
            ∃ st, Cage.getStatusOne = some st ∧ (odo.Accumulate m st).1 = RESET))) := by
  cases hst : Cage.getStatusOne with
  | none =>
    refine ⟨_, _, Spin_fetch_failed m t Cage stamp b hst, ?_, ?_, ?_, ?_, ?_, ?_⟩
    · simp
    · intro _; exact ⟨rfl, rfl⟩
    · intro st h; cases h
    · intro st h; cases h
    · intro st h; cases h
    · intro _; simp
  | some st =>
    rcases Accumulate_ret_cases m odo st with hret | hret | hret
    · refine ⟨_, _, Spin_reset m t Cage stamp b odo st hodo hst hret, ?_, ?_, ?_, ?_, ?_, ?_⟩
      · simp [hret, UPDATED]
      · intro h; cases h
      · intro st1 h _; exact ⟨rfl, rfl⟩
      · intro st1 h h0; cases h; rw [hret] at h0; simp [SKIPPED] at h0
      · intro st1 h h0; cases h; rw [hret] at h0; simp [UPDATED] at h0
      · intro _; simp [hret, RESET]
    · refine ⟨_, _, Spin_skipped m t Cage stamp b odo st hodo hst hret, ?_, ?_, ?_, ?_, ?_, ?_⟩
      · simp [hret, UPDATED]
      · intro h; cases h
      · intro st1 h h0; cases h; rw [hret] at h0; simp [RESET] at h0
      · intro st1 h _; exact ⟨rfl, rfl, rfl⟩
      · intro st1 h _; exact ⟨rfl, rfl⟩
      · intro hok; simp [hret, RESET, hok]
    · refine ⟨_, _, Spin_updated m t Cage stamp b odo st hw hodo hst hret, ?_, ?_, ?_, ?_, ?_, ?_⟩
      · simp [hret, UPDATED]
      · intro h; cases h
      · intro st1 h h0; cases h; rw [hret] at h0; simp [RESET] at h0
      · intro st1 h h0; cases h; rw [hret] at h0; simp [SKIPPED] at h0
      · intro st1 h _; exact ⟨rfl, rfl⟩
      · intro hok; simp [hret, RESET, hok]

/-- C6: a `Spin` cycle in which `Accumulate` returns UPDATED emits exactly,
in this order: the integrated odometry record (position `(X, Y, 0)`,
orientation `setRPY(0, 0, Th)`, twist `(Vx, Az)`) and its transform, the
ground-truth odometry record (position `(wx, wy, wz)`, orientation
`(ox, oy, oz, ow)`, the same linear and angular velocity as the integrated
record) and its transform, the inertial record and its transform, the
satellite-fix record (raw latitude and longitude, altitude not-a-number) and
the `base_link -> lidar3d_link` transform; no `map -> odom` transform is
among the emitted records. -/
theorem spin_updated_records (m : Libm) (t : Tf2)
    (Cage : CageAPI) (stamp : Stamp) (b : CageRosBridgeMain) (odo : SimpleOdometry)
    (st : vehicleStatus) (hw : b.Wired) (hodo : b.Odo = some odo)
    (hst : Cage.getStatusOne = some st) (hret : (odo.Accumulate m st).1 = UPDATED) :
    ∃ b1 out o1 f1 o2 f2 i3 f3 n4 f4,
      b.Spin m t Cage stamp = some (b1, out) ∧
      out = [Record.odometry "odom" o1, Record.transform f1,
             Record.odometry "odom_gt" o2, Record.transform f2,
             Record.imu "imu" i3, Record.transform f3,
             Record.navSatFix "gps/fix" n4, Record.transform f4] ∧
      (o1.position = ⟨(odo.Accumulate m st).2.X, (odo.Accumulate m st).2.Y, 0⟩ ∧
        o1.orientation = t.setRPY 0 0 (odo.Accumulate m st).2.Th ∧
        o1.linear = ⟨(odo.Accumulate m st).2.Vx, 0, 0⟩ ∧
        o1.angular = ⟨0, 0, (odo.Accumulate m st).2.Az⟩) ∧
      (o2.position = ⟨st.wx, st.wy, st.wz⟩ ∧
        o2.orientation = ⟨st.ox, st.oy, st.oz, st.ow⟩ ∧
        o2.linear = o1.linear ∧ o2.angular = o1.angular) ∧
      (i3.orientation = ⟨st.ox, st.oy, st.oz, st.ow⟩ ∧
        i3.angular_velocity = ⟨st.rx, st.ry, st.rz⟩ ∧
        i3.linear_acceleration = ⟨st.ax, st.ay, st.az⟩) ∧
      (n4.latitude = st.latitude ∧ n4.longitude = st.longitude ∧ n4.altitude = Double.nan) ∧
      (f4.frame_id = "base_link" ∧ f4.child_frame_id = "lidar3d_link" ∧
        f4.translation = b.LidarTransform.trans ∧ f4.rotation = b.QLidar) ∧
      (∀ r ∈ out, ∀ f, r = Record.transform f →
        ¬ (f.frame_id = "map" ∧ f.child_frame_id = "odom")) := by
  have haz := Accumulate_updated_Az m odo st hret
  refine ⟨_, _, _, _, _, _, _, _, _, _, Spin_updated m t Cage stamp b odo st hw hodo hst hret,
    rfl, ⟨rfl, rfl, rfl, rfl⟩, ⟨rfl, rfl, rfl, ?_⟩, ⟨rfl, rfl, rfl⟩, ⟨rfl, rfl, rfl⟩,
    ⟨rfl, rfl, rfl, rfl⟩, ?_⟩
  · simp only [haz]
  · intro r hr f hf
    subst hf
    simp only [List.mem_cons, List.mem_singleton, Record.transform.injEq, reduceCtorEq,
      false_or, List.not_mem_nil, or_false] at hr
    rcases hr with hr | hr | hr | hr <;> subst hr <;> simp

/-- `Initialize` when `connect()` fails. -/
theorem Initialize_connect_failed (m : Libm) (t : Tf2)
    (Cage : CageAPI) (b : CageRosBridgeMain) (hc : Cage.connect = false) :
    CageRosBridgeMain.Initialize m t Cage b =
      { ret := false
        bridge := { b with Seq := 0, Err := "Failed to connect:" ++ Cage.getError,
                           Ok := false }
        setVW := [] } := by
  simp [CageRosBridgeMain.Initialize, hc]

/-- `Initialize` when `connect()` succeeds and the status fetch fails. -/
theorem Initialize_fetch_failed (m : Libm) (t : Tf2)
    (Cage : CageAPI) (b : CageRosBridgeMain) (hc : Cage.connect = true)
    (hst : Cage.getStatusOne = none) :
    CageRosBridgeMain.Initialize m t Cage b =
      { ret := false
        bridge := { b with Seq := 0, Err := "getStatus failed:" ++ Cage.getError,
                           Ok := false }
        setVW := [] } := by
  simp [CageRosBridgeMain.Initialize, hc, hst]

/-- `Initialize` when `connect()` and the status fetch both succeed. -/
theorem Initialize_success (m : Libm) (t : Tf2)
    (Cage : CageAPI) (b : CageRosBridgeMain) (st : vehicleStatus)
    (hc : Cage.connect = true) (hst : Cage.getStatusOne = some st) :
    CageRosBridgeMain.Initialize m t Cage b =
      { ret := true
        bridge :=
          { b with
              Seq := 0
              Odo := some ((SimpleOdometry.new Cage.VehicleInfo).Accumulate m st).2
              LidarTransform := Cage.VehicleInfo.Transforms "Lidar"
              QLidar := ⟨(Cage.VehicleInfo.Transforms "Lidar").rot.e1,
                         (Cage.VehicleInfo.Transforms "Lidar").rot.e2,
                         (Cage.VehicleInfo.Transforms "Lidar").rot.e3,
                         (Cage.VehicleInfo.Transforms "Lidar").rot.e0⟩
              IMUTransform := Cage.VehicleInfo.Transforms "IMU"
              WorldRotation :=
                if Cage.WorldInfo.valid then
                  t.mul (t.mul ⟨st.ox, st.oy, st.oz, st.ow⟩
                          ⟨Cage.WorldInfo.ReferenceRotation.e1,
                           Cage.WorldInfo.ReferenceRotation.e2,
                           Cage.WorldInfo.ReferenceRotation.e3,
                           Cage.WorldInfo.ReferenceRotation.e0⟩)
                        (t.setRPY 0 0 (m.M_PI / Double.lit 2 1))
                else ⟨0, 0, 0, 1⟩
              Err := ""
              Ok := true }
        setVW := [(0, 0)] } := by
  simp [CageRosBridgeMain.Initialize, hc, hst]

/-- C7: `initialize()` returns true if and only if `connect()` succeeds and
the status fetch succeeds, and `Ok` equals the returned value afterwards; on
failure `Err` is the non-empty text `"Failed to connect:"` or
`"getStatus failed:"` followed by the client error, no velocity command is
sent and the integrator is not replaced; on success `Err` is empty, the
integrator is a freshly constructed one given exactly one `Accumulate` call
with the fetched sample, and exactly one command `setVW(0, 0)` is sent. -/
theorem initialize_outcomes (m : Libm) (t : Tf2)
    (Cage : CageAPI) (b : CageRosBridgeMain) :
    ((CageRosBridgeMain.Initialize m t Cage b).ret = true ↔
      (Cage.connect = true ∧ ∃ st, Cage.getStatusOne = some st)) ∧
    (CageRosBridgeMain.Initialize m t Cage b).bridge.Ok =
      (CageRosBridgeMain.Initialize m t Cage b).ret ∧
    (Cage.connect = false →
      (CageRosBridgeMain.Initialize m t Cage b).bridge.Err =
          "Failed to connect:" ++ Cage.getError ∧
      (CageRosBridgeMain.Initialize m t Cage b).bridge.Err ≠ "" ∧
      (CageRosBridgeMain.Initialize m t Cage b).setVW = [] ∧
      (CageRosBridgeMain.Initialize m t Cage b).bridge.Odo = b.Odo) ∧
    (Cage.connect = true → Cage.getStatusOne = none →
      (CageRosBridgeMain.Initialize m t Cage b).bridge.Err =
          "getStatus failed:" ++ Cage.getError ∧
      (CageRosBridgeMain.Initialize m t Cage b).bridge.Err ≠ "" ∧
      (CageRosBridgeMain.Initialize m t Cage b).setVW = [] ∧
      (CageRosBridgeMain.Initialize m t Cage b).bridge.Odo = b.Odo) ∧
    (∀ st, Cage.connect = true → Cage.getStatusOne = some st →
      (CageRosBridgeMain.Initialize m t Cage b).bridge.Err = "" ∧
      (CageRosBridgeMain.Initialize m t Cage b).bridge.Odo =
          some ((SimpleOdometry.new Cage.VehicleInfo).Accumulate m st).2 ∧
      (CageRosBridgeMain.Initialize m t Cage b).setVW = [(0, 0)]) := by
  cases hc : Cage.connect with
  | false =>
    rw [Initialize_connect_failed m t Cage b hc]
    refine ⟨by simp, rfl, ?_, ?_, ?_⟩
    · intro _
      exact ⟨rfl, append_ne_empty _ _ (by decide), rfl, rfl⟩
    · intro h; cases h
    · intro st h; cases h
  | true =>
    cases hst : Cage.getStatusOne with
    | none =>
      rw [Initialize_fetch_failed m t Cage b hc hst]
      refine ⟨by simp, rfl, ?_, ?_, ?_⟩
      · intro h; cases h
      · intro _ _
        exact ⟨rfl, append_ne_empty _ _ (by decide), rfl, rfl⟩
      · intro st _ h; cases h
    | some st =>
      rw [Initialize_success m t Cage b st hc hst]
      refine ⟨by simp, rfl, ?_, ?_, ?_⟩
      · intro h; cases h
      · intro _ h; cases h
      · intro st1 _ h
        cases h
        exact ⟨rfl, rfl, rfl⟩

/-- Every `Spin` call logged by the driver loop was made on a healthy bridge. -/
theorem mainLoop_spin_ok (m : Libm) (t : Tf2)
    (es : List (Cycle)) :
    ∀ (b : CageRosBridgeMain) (entry : Call × CageRosBridgeMain),
      entry ∈ mainLoop m t es b → entry.1 = Call.Spin → entry.2.Ok = true := by
  induction es with
  | nil =>
    intro b entry h
    simp [mainLoop] at h
  | cons e es ih =>
    intro b entry h hcall
    have hhead : ∀ c : Call, (c, b) = entry →
        c = (mainIteration m t e b).1 → entry.2.Ok = true := by
      intro c hc hit
      subst hc
      cases hok : b.Ok with
      | true => rfl
      | false =>
        simp only [mainIteration, hok, Bool.not_false, if_true] at hit
        simp only at hcall
        rw [hit] at hcall
        cases hcall
    cases hit : mainIteration m t e b with
    | mk c next =>
      cases next with
      | none =>
        simp only [mainLoop, hit, List.mem_singleton] at h
        exact hhead c h.symm (by rw [hit])
      | some nb =>
        simp only [mainLoop, hit, List.mem_cons] at h
        rcases h with h | h
        · exact hhead c h.symm (by rw [hit])
        · exact ih nb entry h hcall

/-- C8: a `Spin` cycle whose `Accumulate` returns RESET leaves the bridge
unhealthy, so the next driver iteration calls `initialize()` and not `Spin()`;
a successful `initialize()` replaces the integrator by a freshly constructed
one (seeded with one `Accumulate`) and recomputes `LidarTransform`, `QLidar`,
`IMUTransform` and `WorldRotation` from the client's current metadata, for
whatever bridge it is called on; and every `Spin()` call of the driver loop is
made while `Ok` is true. -/
theorem world_restart_reinitializes (m : Libm)
    (t : Tf2) :
    (∀ (b : CageRosBridgeMain) (odo : SimpleOdometry) (Cage : CageAPI) (stamp : Stamp)
        (st : vehicleStatus),
      b.Odo = some odo → Cage.getStatusOne = some st → (odo.Accumulate m st).1 = RESET →
      ∃ b1, b.Spin m t Cage stamp = some (b1, []) ∧ b1.Ok = false ∧
        ∀ e : Cycle,
          mainIteration m t e b1 =
            (Call.Initialize, some (CageRosBridgeMain.Initialize m t e.Cage b1).bridge)) ∧
    (∀ (b : CageRosBridgeMain) (Cage : CageAPI),
      (CageRosBridgeMain.Initialize m t Cage b).ret = true →
      ∃ st, Cage.getStatusOne = some st ∧
        (CageRosBridgeMain.Initialize m t Cage b).bridge.Odo =
          some ((SimpleOdometry.new Cage.VehicleInfo).Accumulate m st).2 ∧
        (CageRosBridgeMain.Initialize m t Cage b).bridge.LidarTransform =
          Cage.VehicleInfo.Transforms "Lidar" ∧
        (CageRosBridgeMain.Initialize m t Cage b).bridge.QLidar =
          ⟨(Cage.VehicleInfo.Transforms "Lidar").rot.e1,
           (Cage.VehicleInfo.Transforms "Lidar").rot.e2,
           (Cage.VehicleInfo.Transforms "Lidar").rot.e3,
           (Cage.VehicleInfo.Transforms "Lidar").rot.e0⟩ ∧
        (CageRosBridgeMain.Initialize m t Cage b).bridge.IMUTransform =
          Cage.VehicleInfo.Transforms "IMU" ∧
        (CageRosBridgeMain.Initialize m t Cage b).bridge.WorldRotation =
          (if Cage.WorldInfo.valid then
            t.mul (t.mul ⟨st.ox, st.oy, st.oz, st.ow⟩
                    ⟨Cage.WorldInfo.ReferenceRotation.e1,
                     Cage.WorldInfo.ReferenceRotation.e2,
                     Cage.WorldInfo.ReferenceRotation.e3,
                     Cage.WorldInfo.ReferenceRotation.e0⟩)
                  (t.setRPY 0 0 (m.M_PI / Double.lit 2 1))
           else ⟨0, 0, 0, 1⟩)) ∧
    (∀ (es : List (Cycle)) (b : CageRosBridgeMain) (entry : Call × CageRosBridgeMain),
      entry ∈ mainLoop m t es b → entry.1 = Call.Spin → entry.2.Ok = true) ∧
    (∀ (b : CageRosBridgeMain) (Cage : CageAPI) (st : vehicleStatus),
      Cage.connect = true → Cage.getStatusOne = some st →
        (CageRosBridgeMain.Initialize m t Cage b).ret = true ∧
        (CageRosBridgeMain.Initialize m t Cage b).bridge.Ok = true ∧
        (CageRosBridgeMain.Initialize m t Cage b).bridge.Odo =
          some ((SimpleOdometry.new Cage.VehicleInfo).Accumulate m st).2 ∧
        (CageRosBridgeMain.Initialize m t Cage b).bridge.LidarTransform =
          Cage.VehicleInfo.Transforms "Lidar" ∧
        (CageRosBridgeMain.Initialize m t Cage b).bridge.IMUTransform =
          Cage.VehicleInfo.Transforms "IMU") ∧
    (∀ (b : CageRosBridgeMain) (odo : SimpleOdometry) (e1 e2 : Cycle) (st : vehicleStatus),
      b.Ok = true → b.Odo = some odo → e1.Cage.getStatusOne = some st →
      (odo.Accumulate m st).1 = RESET →
      ∃ b1, b1.Ok = false ∧
        mainLoop m t [e1, e2] b = [(Call.Spin, b), (Call.Initialize, b1)]) := by
  refine ⟨?_, ?_, fun es b entry => mainLoop_spin_ok m t es b entry, ?_, ?_⟩
  · intro b odo Cage stamp st hodo hst hret
    refine ⟨_, Spin_reset m t Cage stamp b odo st hodo hst hret, rfl, ?_⟩
    intro e
    simp [mainIteration]
  · intro b Cage hret
    cases hc : Cage.connect with
    | false =>
      rw [Initialize_connect_failed m t Cage b hc] at hret
      cases hret
    | true =>
      cases hst : Cage.getStatusOne with
      | none =>
        rw [Initialize_fetch_failed m t Cage b hc hst] at hret
        cases hret
      | some st =>
        rw [Initialize_success m t Cage b st hc hst]
        exact ⟨st, rfl, rfl, rfl, rfl, rfl, rfl⟩
  · intro b Cage st hc hst
    rw [Initialize_success m t Cage b st hc hst]
    exact ⟨rfl, rfl, rfl, rfl, rfl⟩
  · intro b odo e1 e2 st hok hodo hst hret
    refine ⟨{ b with Seq := (b.Seq + 1) % 2 ^ 64, Odo := some (odo.Accumulate m st).2,
                     Ok := false, Err := "World restart detected" }, rfl, ?_⟩
    simp [mainLoop, mainIteration, hok, Spin_reset m t e1.Cage e1.stamp b odo st hodo hst hret]

/-- Witness of C5: a healthy wired bridge at clock 5 receives a sample at
clock 6; records are emitted and the bridge stays healthy. -/
theorem spin_outcomes_witness :
    (scenarioBridge (Double.lit 5 1)).Wired ∧
    (scenarioBridge (Double.lit 5 1)).Odo = some (scenarioOdometry (Double.lit 5 1)) ∧
    ∃ b1 out,
      (scenarioBridge (Double.lit 5 1)).Spin libmAtZero (tf2Reference libmAtZero)
          (scenarioCage (Double.lit 6 1)) 0 = some (b1, out) ∧
      out ≠ [] ∧ b1.Ok = true := by
  have hw : (scenarioBridge (Double.lit 5 1)).Wired := ⟨rfl, rfl, rfl, rfl⟩
  have h1 : ¬ (scenarioOdometry (Double.lit 5 1)).LastClock >
      (scenarioStatus (Double.lit 6 1)).simClock := by decide!
  have h2 : ¬ (scenarioStatus (Double.lit 6 1)).simClock -
      (scenarioOdometry (Double.lit 5 1)).LastClock < Double.lit 1 1000 := by decide!
  have hret : ((scenarioOdometry (Double.lit 5 1)).Accumulate libmAtZero
      (scenarioStatus (Double.lit 6 1))).1 = UPDATED := by
    rw [Accumulate_of_large _ _ _ h1 h2]; rfl
  obtain ⟨b1, out, hspin, hiff, _, _, _, hupd, _⟩ :=
    spin_outcomes libmAtZero (tf2Reference libmAtZero)
      (scenarioCage (Double.lit 6 1)) 0 (scenarioBridge (Double.lit 5 1))
      (scenarioOdometry (Double.lit 5 1)) hw rfl
  exact ⟨hw, rfl, b1, out, hspin, hiff.mpr ⟨_, rfl, hret⟩, (hupd _ rfl hret).1.trans rfl⟩

/-- Witness of C6: the same cycle emits eight records. -/
theorem spin_updated_records_witness :
    (scenarioBridge (Double.lit 5 1)).Wired ∧
    (scenarioBridge (Double.lit 5 1)).Odo = some (scenarioOdometry (Double.lit 5 1)) ∧
    (scenarioCage (Double.lit 6 1)).getStatusOne = some (scenarioStatus (Double.lit 6 1)) ∧
    ((scenarioOdometry (Double.lit 5 1)).Accumulate libmAtZero
      (scenarioStatus (Double.lit 6 1))).1 = UPDATED ∧
    ∃ b1 out,
      (scenarioBridge (Double.lit 5 1)).Spin libmAtZero (tf2Reference libmAtZero)
          (scenarioCage (Double.lit 6 1)) 0 = some (b1, out) ∧
      out.length = 8 := by
  have hw : (scenarioBridge (Double.lit 5 1)).Wired := ⟨rfl, rfl, rfl, rfl⟩
  have h1 : ¬ (scenarioOdometry (Double.lit 5 1)).LastClock >
      (scenarioStatus (Double.lit 6 1)).simClock := by decide!
  have h2 : ¬ (scenarioStatus (Double.lit 6 1)).simClock -
      (scenarioOdometry (Double.lit 5 1)).LastClock < Double.lit 1 1000 := by decide!
  have hret : ((scenarioOdometry (Double.lit 5 1)).Accumulate libmAtZero
      (scenarioStatus (Double.lit 6 1))).1 = UPDATED := by
    rw [Accumulate_of_large _ _ _ h1 h2]; rfl
  obtain ⟨b1, out, _, _, _, _, _, _, _, _, hspin, hout, _⟩ :=
    spin_updated_records libmAtZero (tf2Reference libmAtZero)
      (scenarioCage (Double.lit 6 1)) 0 (scenarioBridge (Double.lit 5 1))
      (scenarioOdometry (Double.lit 5 1)) (scenarioStatus (Double.lit 6 1)) hw rfl rfl hret
  exact ⟨hw, rfl, rfl, hret, b1, out, hspin, by rw [hout]; rfl⟩

/-- Witness of C8: a healthy wired bridge at clock 5 receives a sample at
clock 2; `Spin` reports the restart, emits nothing and leaves the bridge
unhealthy, and the following `initialize()` on a client that answers
succeeds. -/
theorem world_restart_reinitializes_witness :
    (scenarioBridge (Double.lit 5 1)).Odo = some (scenarioOdometry (Double.lit 5 1)) ∧
    (scenarioCage (Double.lit 2 1)).getStatusOne = some (scenarioStatus (Double.lit 2 1)) ∧
    ((scenarioOdometry (Double.lit 5 1)).Accumulate libmAtZero
      (scenarioStatus (Double.lit 2 1))).1 = RESET ∧
    ∃ b1,
      (scenarioBridge (Double.lit 5 1)).Spin libmAtZero (tf2Reference libmAtZero)
          (scenarioCage (Double.lit 2 1)) 0 = some (b1, []) ∧
      b1.Ok = false ∧
      (CageRosBridgeMain.Initialize libmAtZero (tf2Reference libmAtZero)
          (scenarioCage (Double.lit 6 1)) b1).ret = true := by
  have h1 : (scenarioOdometry (Double.lit 5 1)).LastClock >
      (scenarioStatus (Double.lit 2 1)).simClock := by decide!
  have hret : ((scenarioOdometry (Double.lit 5 1)).Accumulate libmAtZero
      (scenarioStatus (Double.lit 2 1))).1 = RESET := by
    rw [Accumulate_of_gt _ _ _ h1]; rfl
  have h := world_restart_reinitializes libmAtZero (tf2Reference libmAtZero)
  obtain ⟨b1, hspin, hok, _⟩ := h.1 (scenarioBridge (Double.lit 5 1))
    (scenarioOdometry (Double.lit 5 1)) (scenarioCage (Double.lit 2 1)) 0
    (scenarioStatus (Double.lit 2 1)) rfl rfl hret
  exact ⟨rfl, rfl, hret, b1, hspin, hok,
    (h.2.2.2.1 b1 (scenarioCage (Double.lit 6 1)) (scenarioStatus (Double.lit 6 1))
      rfl rfl).1⟩

/-- The wiring carries over to a bridge with the same publisher members. -/
theorem Wired_of_eq (b b1 : CageRosBridgeMain) (h : b.Wired)
    (e0 : b1.rosIF = b.rosIF) (e1 : b1.pubOdom = b.pubOdom)
    (e2 : b1.pubOdom_gt = b.pubOdom_gt) (e3 : b1.pubLatLon = b.pubLatLon) : b1.Wired := by
  obtain ⟨h0, h1, h2, h3⟩ := h
  exact ⟨(e0.trans h0).trans rfl, (e1.trans h1).trans rfl, (e2.trans h2).trans rfl,
    (e3.trans h3).trans rfl⟩

/-- The bridge the constructor builds satisfies the loop condition. -/
theorem Ready_new (q0 : Quaternion) (t0 : Transform) :
    (CageRosBridgeMain.new q0 t0).Ready :=
  ⟨⟨rfl, rfl, rfl, rfl⟩, fun h => by cases h⟩

/-- One iteration of the driver loop on a bridge satisfying the loop condition
is defined (no null integrator, no undefined publish) and keeps the
condition. -/
theorem mainIteration_defined (m : Libm) (t : Tf2)
    (e : Cycle) (b : CageRosBridgeMain) (h : b.Ready) :
    ∃ nb, (mainIteration m t e b).2 = some nb ∧ nb.Ready := by
  obtain ⟨hw, hodo⟩ := h
  cases hok : b.Ok with
  | false =>
    refine ⟨(CageRosBridgeMain.Initialize m t e.Cage b).bridge, by simp [mainIteration, hok], ?_⟩
    cases hc : e.Cage.connect with
    | false =>
      rw [Initialize_connect_failed m t e.Cage b hc]
      exact ⟨Wired_of_eq b _ hw rfl rfl rfl rfl, fun h => by cases h⟩
    | true =>
      cases hst : e.Cage.getStatusOne with
      | none =>
        rw [Initialize_fetch_failed m t e.Cage b hc hst]
        exact ⟨Wired_of_eq b _ hw rfl rfl rfl rfl, fun h => by cases h⟩
      | some st =>
        rw [Initialize_success m t e.Cage b st hc hst]
        exact ⟨Wired_of_eq b _ hw rfl rfl rfl rfl, fun _ => ⟨_, rfl⟩⟩
  | true =>
    obtain ⟨odo, ho⟩ := hodo hok
    have hit : (mainIteration m t e b).2 = (b.Spin m t e.Cage e.stamp).map Prod.fst := by
      simp [mainIteration, hok]
    rw [hit]
    cases hst : e.Cage.getStatusOne with
    | none =>
      rw [Spin_fetch_failed m t e.Cage e.stamp b hst]
      exact ⟨_, rfl, Wired_of_eq b _ hw rfl rfl rfl rfl, fun h => by cases h⟩
    | some st =>
      rcases Accumulate_ret_cases m odo st with hret | hret | hret
      · rw [Spin_reset m t e.Cage e.stamp b odo st ho hst hret]
        exact ⟨_, rfl, Wired_of_eq b _ hw rfl rfl rfl rfl, fun h => by cases h⟩
      · rw [Spin_skipped m t e.Cage e.stamp b odo st ho hst hret]
        exact ⟨_, rfl, Wired_of_eq b _ hw rfl rfl rfl rfl, fun _ => ⟨_, rfl⟩⟩
      · rw [Spin_updated m t e.Cage e.stamp b odo st hw ho hst hret]
        exact ⟨_, rfl, Wired_of_eq b _ hw rfl rfl rfl rfl, fun _ => ⟨_, rfl⟩⟩

/-- The driver loop started on a bridge satisfying the loop condition logs one
call per iteration: no iteration is undefined. -/
theorem mainLoop_length (m : Libm) (t : Tf2)
    (es : List (Cycle)) :
    ∀ b : CageRosBridgeMain, b.Ready → (mainLoop m t es b).length = es.length := by
  induction es with
  | nil => intro b _; rfl
  | cons e es ih =>
    intro b hb
    obtain ⟨nb, hnb, hready⟩ := mainIteration_defined m t e b hb
    cases hit : mainIteration m t e b with
    | mk c next =>
      rw [hit] at hnb
      simp only at hnb
      subst hnb
      simp only [mainLoop, hit, List.length_cons, ih nb hready]

end CageRos
